import Mathlib

/-!
Verification development for a small RAG chat application (`app.py`) and its
LLM-as-judge evaluation harness (`evaluation/evaluate.py`).

The Python code is shallowly embedded: pure string manipulation is translated
to executable Lean functions over `String`/`List Char`, network calls
(chat model, embedding model, search service) are abstracted as oracle
functions supplied as arguments, and Python exceptions are modelled with
`Except`.
-/

set_option autoImplicit false

namespace Samples

/-- Characters treated as whitespace by the Python `str.strip()` calls in the
source (ASCII whitespace and the C1 separator block; other Unicode space
characters do not occur in the modelled data). -/
def pyWhite (c : Char) : Bool :=
  c == ' ' || c == '\t' || c == '\n' || c == '\r' || c == '\x0b' || c == '\x0c' ||
  c == '\x1c' || c == '\x1d' || c == '\x1e' || c == '\x1f'

/-- Python `s.strip()` at the character-list level: drop whitespace from both
ends. -/
def stripL (s : List Char) : List Char :=
  ((s.dropWhile pyWhite).reverse.dropWhile pyWhite).reverse

/-- Python `s.strip()`. -/
def pyStrip (s : String) : String :=
  ⟨stripL s.data⟩

/-- Leftmost occurrence of `sep` in a character list: `some (pre, post)` with
the list equal to `pre ++ sep ++ post` and `pre` shortest; `none` when `sep`
does not occur.  Only used with `sep ≠ []` (Python rejects an empty
separator). -/
def findFirstSplit (sep : List Char) : List Char → Option (List Char × List Char)
  | [] => none
  | c :: rest =>
    if sep.isPrefixOf (c :: rest) then some ([], (c :: rest).drop sep.length)
    else
      match findFirstSplit sep rest with
      | some (pre, post) => some (c :: pre, post)
      | none => none

/-- Rightmost occurrence of `sep` in a character list (the analogue of
`findFirstSplit` for Python `str.rsplit(sep, 1)`). -/
def findLastSplit (sep : List Char) : List Char → Option (List Char × List Char)
  | [] => none
  | c :: rest =>
    match findLastSplit sep rest with
    | some (pre, post) => some (c :: pre, post)
    | none =>
      if sep.isPrefixOf (c :: rest) then some ([], (c :: rest).drop sep.length)
      else none

/-- Python `s.split(sep, 1)` at the character-list level: split at the first
occurrence of `sep`, yielding one or two pieces. -/
def pySplit1L (sep s : List Char) : List (List Char) :=
  match findFirstSplit sep s with
  | some (pre, post) => [pre, post]
  | none => [s]

/-- Python `s.split(sep, 1)`. -/
def pySplit1 (s sep : String) : List String :=
  (pySplit1L sep.data s.data).map String.mk

/-- Python `s.rsplit(sep, 1)`: split at the last occurrence of `sep`. -/
def pyRSplit1 (s sep : String) : List String :=
  match findLastSplit sep.data s.data with
  | some (pre, post) => [String.mk pre, String.mk post]
  | none => [s]

/-- Containment of `sep` in a character list, matching Python `sep in s` for a
non-empty `sep`. -/
def pyContainsL (sep s : List Char) : Bool :=
  (findFirstSplit sep s).isSome

/-- Python `sep in s` for a non-empty separator. -/
def pyContains (s sep : String) : Bool :=
  pyContainsL sep.data s.data

/-- Python `s.lower()` (the source only lowercases ASCII data). -/
def pyLower (s : String) : String :=
  ⟨s.data.map Char.toLower⟩

/-- Fuelled worker for Python `s.replace(old, new)`: replace every
non-overlapping occurrence of `sep` left to right, never rescanning the
replacement text within the same pass.  One unit of fuel is spent per consumed
character, so fuel `s.length` suffices. -/
def replaceAllAux (sep repl : List Char) : Nat → List Char → List Char
  | _, [] => []
  | 0, s => s
  | fuel + 1, c :: rest =>
    if !sep.isEmpty && sep.isPrefixOf (c :: rest) then
      repl ++ replaceAllAux sep repl fuel ((c :: rest).drop sep.length)
    else
      c :: replaceAllAux sep repl fuel rest

/-- Python `s.replace(old, new)` at the character-list level. -/
def replaceAllL (sep repl s : List Char) : List Char :=
  replaceAllAux sep repl s.length s

/-- Python `s.replace(old, new)`. -/
def pyReplace (s old new : String) : String :=
  ⟨replaceAllL old.data new.data s.data⟩

/-- Python `sep.join(xs)`. -/
def pyJoin (sep : String) : List String → String
  | [] => ""
  | [x] => x
  | x :: xs => x ++ sep ++ pyJoin sep xs

/-- Python `xs[i]` on a list, which raises `IndexError` when out of range. -/
def pyIndex (xs : List String) (i : Nat) : Except String String :=
  match xs.get? i with
  | some v => Except.ok v
  | none => Except.error "IndexError: list index out of range"

/-- Boolean stating that no occurrence of `sep` in `x ++ y` begins inside the
`x` part (including occurrences that would straddle the boundary). -/
def noOccurIn (sep : List Char) : List Char → List Char → Bool
  | [], _ => true
  | c :: x, y => !sep.isPrefixOf (c :: (x ++ y)) && noOccurIn sep x y

/-- Chat message, mirroring the role/content dictionaries sent to the models. -/
structure Message where
  role : String
  content : String
deriving DecidableEq

/-- Assoc-list model of the string-valued Python dictionaries built by the
code (for example the retrieval context items). -/
abbrev Dict := List (String × String)

/-- Python `d[k]` for the dictionaries built by this code; every access in the
modelled code paths is to a key that is present, so a default covers the
(unreached) missing-key case. -/
def dget (d : Dict) (k : String) : String :=
  (List.lookup k d).getD ""
/-- Verbatim prompt template `quality_prompt` from the source. -/
def quality_prompt : String :=
  "You are an AI evaluator. \nThe \"quality\" metric is a measure of how well the generated answer adheres to the quality standards. The quality standards are as follows:\n1. Clarity: The information should be presented in a clear, concise, and understandable manner, avoiding unnecessary jargon or complexity.\n2. Tone: The tone of the answer should be appropriate for the context and audience, maintaining a professional and respectful demeanor.\n3. Persona: The answer should be consistent with the persona of the AI assistant, reflecting the expected behavior and characteristics. In our case, the AI assistant is here to help with healthcare and employee-handbook questions.\n4. Helpfulness: The answer should try to be as helpful as possible. It should provide relevant information from the context and never be lazy. \n\nScore the answer between one to five stars. One star indicates poor quality, while five stars indicate excellent quality.\n\n\nquestion: What does my healthcare plan cost per month?\ncontext: Your healthcare plan costs $100 per month. Your dental coverage includes two cleanings per year, and your vision coverage includes an annual eye exam and a $150 allowance for frames or contact lenses. You can choose between a PPO and an HMO plan, with the PPO offering more flexibility in choosing healthcare providers and the HMO providing lower out-of-pocket costs. The plan also includes a prescription drug benefit with a $10 copay for generic drugs and a $30 copay for brand-name drugs. In addition, you have access to a telemedicine service for virtual doctor visits at no additional cost.\nanswer: $100, check the sources for more information.\nthoughts: The answer is too short and does not adequetly address the question. The answer sounds terse and unhelpful. It is also being lazy and directing the user to check the sources even though it has all the relevant context. It should be rated 1 star.\nstars: 1\n\nquestion: What does my healthcare plan cost per month?\ncontext: Your healthcare plan costs $100 per month. In the bustling streets of Tokyo, the latest advancements in robotics are seamlessly integrated into daily life, from automated restaurant servers to sophisticated cleaning robots in public spaces. Meanwhile, halfway across the world, the serene landscapes of southern Pennsylvania are a haven for nature enthusiasts, boasting picturesque hiking trails and abundant wildlife. As the world becomes more interconnected, the field of renewable energy continues to evolve, with innovations like floating solar farms and advanced wind turbines pushing the boundaries of sustainable power generation. Amidst these technological and environmental shifts, the art world remains ever vibrant, with contemporary artists drawing inspiration from these changes to create thought-provoking works that challenge societal norms and provoke deep reflection. \nanswer: Your healthcare plan costs $100 per month. It includes dental coverage for two cleanings per year and vision coverage with an annual eye exam and a $150 allowance for frames or contact lenses. You can choose between a PPO and an HMO plan; the PPO offers more flexibility in selecting healthcare providers, while the HMO has lower out-of-pocket costs. The plan also includes a prescription drug benefit, with a $10 copay for generic drugs and a $30 copay for brand-name drugs. Additionally, you have access to a telemedicine service for virtual doctor visits at no extra cost.\nthoughts: The answer is clear, detailed, and provides all the relevant information from the context. It is helpful and addresses the question effectively. It should be rated 5 stars.\nstars: 5\n\n\nquestion: \x7b\x7bquestion\x7d\x7d\ncontext: \x7b\x7bcontext\x7d\x7d\nanswer: \x7b\x7banswer\x7d\x7d\nthoughts:\nstars:\n"

/-- Verbatim prompt template `correctness_prompt` from the source. -/
def correctness_prompt : String :=
  "You are an AI evaluator. \nThe \"correctness metric\" is a measure of if the generated answer is correct based on the ground truth answer. You will be given the generated answer and the ground truth answer. You need to compare them and score the content between one to five stars using the following rating scale:\nOne star: The answer is incorrect\nThree stars: The answer is partially correct, but could be missing some key context or nuance that makes it potentially misleading or incomplete compared with the ground truth.  \nFive stars: The answer is correct\n\nThis rating value should always be either 1, 3, or 5. \n\n\nquestion: What does my healthcare plan cost per month?\ntruth: Your healthcare plan costs $200 per month\nanswer: Your healthcare plan costs $200 per month\nthoughts: The answer is correct, so it should be rated 5 stars.\nstars: 5\n\nquestion: What does my healthcare plan cost per month?\ntruth: Your healthcare plan costs $100 per month\nanswer: Your healthcare plan costs $200 per month\nthoughts: The costs differ between the truth and the answer, so it is completely incorrect, so it should be rated 1 star.\nstars: 1\n\n\nquestion: \x7b\x7bquestion\x7d\x7d\nground_truth: \x7b\x7bground_truth\x7d\x7d\nanswer: \x7b\x7banswer\x7d\x7d\nthoughts:\nstars:\n"

/-- Verbatim prompt template `dont_know_prompt` from the source. -/
def dont_know_prompt : String :=
  "You are an AI evaluator. \nThe \"I don\x27t know\"-ness metric is a measure of how much an answer conveys the lack of knowledge or uncertainty, which is useful for making sure a chatbot for a particular domain doesn\x27t answer outside that domain. Score the I-dont-know-ness of the answer between one to five stars using the following rating scale:\nOne star: the answer completely answers the question and conveys no uncertainty\nTwo stars: the answer conveys a little uncertainty but mostly attempts to answer the question\nThree stars: the answer conveys some uncertainty but still contains some attempt to answer the question\nFour stars: the answer conveys uncertainty and makes no attempt to answer the question\nFive stars: the answer says straightforwardly that it doesn\x27t know, and makes no attempt to answer the question.\n\nThis rating value should always be an integer between 1 and 5. So the rating produced should be 1 or 2 or 3 or 4 or 5.\n\n\nquestion: What are the main goals of Perseverance Mars rover mission?\nanswer: The main goals of the Perseverance Mars rover mission are to search for signs of ancient life and collect rock and soil samples for possible return to Earth.\nstars: 1\n\nquestion: What field did Marie Curie excel in?\nanswer: I\x27m not sure, but I think Marie Curie excelled in the field of science.\nstars: 2\n\nquestion: What are the main components of the Mediterranean diet?\nanswer: I don\x27t have an answer in my sources but I think the diet has some fats?\nstars: 3\n\nquestion: What are the main attractions of the Queen\x27s Royal Castle?\nanswer: I\x27m not certain. Perhaps try rephrasing the question?\nstars: 4\n\nquestion: Where were The Beatles formed?\nanswer: I\x27m sorry, I don\x27t know, that answer is not in my sources.\nstars: 5\n\n\nquestion: \x7b\x7bquestion\x7d\x7d\nanswer: \x7b\x7banswer\x7d\x7d\nstars:\n"

/-- Verbatim prompt template `focus_prompt` from the source. -/
def focus_prompt : String :=
  "You are an AI evaluator.\nThe \"focus\" metric is a measure of how well the generated answer ignores irrelevant information in the context and focuses on the relevant content. Score the answer between one to five stars using the following rating scale:\nOne star: The answer contains a significant amount of irrelevant information. Almost all of the irrelevant information from the context is included in the answer. \nTwo stars: The answer contains some irrelevant information. Approximately half of the irrelevant information from the context is included in the answer.\nThree stars: The answer contains a moderate amount of irrelevant information. A few pieces of irrelevant information from the context are included in the answer, but the majority of the answer is relevant.\nFour stars: The answer ignores almost all of the irrelevant content, but some minor irrelevant information is included. \nFive stars: The answer ignores all irrelevant information and focuses only on the relevant content. \n\n\nquestion: What does my healthcare plan cost per month?\ncontext: Your healthcare plan costs $100 per month. In the bustling streets of Tokyo, the latest advancements in robotics are seamlessly integrated into daily life, from automated restaurant servers to sophisticated cleaning robots in public spaces. Meanwhile, halfway across the world, the serene landscapes of southern Pennsylvania are a haven for nature enthusiasts, boasting picturesque hiking trails and abundant wildlife. As the world becomes more interconnected, the field of renewable energy continues to evolve, with innovations like floating solar farms and advanced wind turbines pushing the boundaries of sustainable power generation. Amidst these technological and environmental shifts, the art world remains ever vibrant, with contemporary artists drawing inspiration from these changes to create thought-provoking works that challenge societal norms and provoke deep reflection. \nanswer: Your healthcare plan costs $100 per month. The context also mentions various other topics: the integration of robotics into daily life in Tokyo, the natural beauty of southern Pennsylvania, advancements in renewable energy like floating solar farms and advanced wind turbines, and the influence of these technological and environmental changes on contemporary art.\nthoughts: The context contains an answer to the healthcare plan cost question which is relevant, but also a large amount of irrelevant content. The answer mentions of all the irrelevant information from the context, so it should be rated 1 star.\nstars: 1\n\nquestion: What does my healthcare plan cost per month?\ncontext: Your healthcare plan costs $100 per month. In the bustling streets of Tokyo, the latest advancements in robotics are seamlessly integrated into daily life, from automated restaurant servers to sophisticated cleaning robots in public spaces. Meanwhile, halfway across the world, the serene landscapes of southern Pennsylvania are a haven for nature enthusiasts, boasting picturesque hiking trails and abundant wildlife. As the world becomes more interconnected, the field of renewable energy continues to evolve, with innovations like floating solar farms and advanced wind turbines pushing the boundaries of sustainable power generation. Amidst these technological and environmental shifts, the art world remains ever vibrant, with contemporary artists drawing inspiration from these changes to create thought-provoking works that challenge societal norms and provoke deep reflection. \nanswer: Your healthcare plan costs $100 per month. The field of renewable energy continues to evolve, which may have an impact on the cost of your healthcare plan in the future.\nthoughts: The context contains an answer to the healthcare plan cost question which is relevant, but also some irrelevant content. The answer includes a piece of irrelevant information about renewable energy, so it should be rated 2 stars.\nstars: 2\n\nquestion: What does my healthcare plan cost per month?\ncontext: Your healthcare plan costs $100 per month. In the bustling streets of Tokyo, the latest advancements in robotics are seamlessly integrated into daily life, from automated restaurant servers to sophisticated cleaning robots in public spaces. Meanwhile, halfway across the world, the serene landscapes of southern Pennsylvania are a haven for nature enthusiasts, boasting picturesque hiking trails and abundant wildlife. As the world becomes more interconnected, the field of renewable energy continues to evolve, with innovations like floating solar farms and advanced wind turbines pushing the boundaries of sustainable power generation. Amidst these technological and environmental shifts, the art world remains ever vibrant, with contemporary artists drawing inspiration from these changes to create thought-provoking works that challenge societal norms and provoke deep reflection. \nanswer: Your healthcare plan costs $100 per month. \nthoughts: The context contains an answer to the healthcare plan cost question which is relevant and the answer is focused only on the relevant content. No irrelevant content made it through. It should be rated 5 stars.\nstars: 5\n\n\n\nquestion: \x7b\x7bquestion\x7d\x7d\ncontext: \x7b\x7bcontext\x7d\x7d\nanswer: \x7b\x7banswer\x7d\x7d\nthoughts:\nstars:\n"

/-- Verbatim prompt template `retrieval_relevance_prompt` from the source. -/
def retrieval_relevance_prompt : String :=
  "You are an AI evaluator. \nThe \"Retrieval Relevance metric is a measure of how relevant the provided context is to the user question. Score the content between one to five stars using the following rating scale:\nOne star: None of the content is relevant\nTwo stars: A small portion of the content is relevant\nThree stars: Approximately half of the content is relevant\nFour stars: The majority of the content is relevant\nFive stars: All of the content is relevant\n\nThis rating value should always be an integer between 1 and 5. So the rating produced should be 1 or 2 or 3 or 4 or 5.\n\nquestion: What does my healthcare plan say about Eye & Dental?\nContext: \nSource 1 - The main goals of the Perseverance Mars rover mission are to search for signs of ancient life and collect rock and soil samples for possible return to Earth.\nSource 2 - Marie Curie excelled in the field of science.\nSource 3 - The sky is blue\nthoughts: The first source is completely unrelated to the question. The second source is also irrelevant. The third source is also irrelevant. Therefore, the rating should be 1 star.\nstars: 1\n\nquestion: What does my healthcare plan say about Eye & Dental?\nContext: \nSource 1 - Your healthcare plan covers eye and dental care [employee benefits handbook]\nSource 2 - You receive benefits up to $500 for eye and dental care annually [employee benefits handbook]\nSource 3 - You can visit any dentist or optometrist in the network for eye and dental care [employee benefits handbook]\nthoughts: The first source talks about eye and dental care which is relevant to the question.  The second source also talks about eye and dental care. The third source also talks about eye and dental care. Therefore, the rating should be 5 stars.\nstars: 5\n\n\nquestion: \x7b\x7bquestion\x7d\x7d\ncontext: \x7b\x7bcontext\x7d\x7d\nstars:\n"

/-- Verbatim prompt template `QUERY_TRANSLATION_PROMPT` from the source. -/
def QUERY_TRANSLATION_PROMPT : String :=
  "\nYou are an AI assistant tasked with translating user queries into effective search queries. \nYour goal is to create a search query that will retrieve the most relevant documents from a search index.\nAnalyze the user\x27s input and generate a concise, relevant search query.\n"

/-- Verbatim prompt template `RAG_SYSTEM_PROMPT` from the source. -/
def RAG_SYSTEM_PROMPT : String :=
  "\nYou are a helpful AI assistant. You are given a user input and some context, it is your job to answer the question based on the context. \nYou can use the context to generate a response that is relevant and informative. The context may not always be relevant to the user input, you should use your best judgment to determine the most appropriate response.\nDo not provide answers that are not included in the context. Your goal is to provide accurate and helpful responses based on the information provided only.\n"

/-- Environment values read by the module initialization of `app.py`
(lines 20-27); `none` models an unset variable (`os.getenv` returns `None`). -/
structure Env where
  aoai_deployment : Option String
  aoai_key : Option String
  aoai_endpoint : Option String
  azure_search_endpoint : Option String
  azure_search_key : Option String
  azure_search_index : Option String
deriving DecidableEq

/-- Configuration state held by the `app.py` module after initialization: the
six environment values exactly as read, with no validation applied by the
application code. -/
structure AppConfig where
  aoai_deployment : Option String
  aoai_key : Option String
  aoai_endpoint : Option String
  search_endpoint : Option String
  search_key : Option String
  search_index : Option String
deriving DecidableEq

/-- Embedding vectors are opaque pass-through data for this code (they are
produced by the embedding service and handed to the search service, never
inspected), so the float vector is modelled as an integer list. -/
abbrev Embedding := List Int

/-- Document as returned by the search service iterator in `get_context`:
the fields `id`, `content` and the `@search.score` relevance value the code
reads.  The float score is only printed and compared, never computed with,
so it is modelled as an integer. -/
structure SearchDoc where
  id : String
  content : String
  score : Int
deriving DecidableEq

/-- Mirror of `VectorizedQuery(vector=..., k_nearest_neighbors=3,
fields="contentVector")` from `app.py` line 86. -/
structure VectorizedQuery where
  vector : Embedding
  k_nearest_neighbors : Nat
  fields : String
deriving DecidableEq

/-- Search request issued by `get_context` (lines 89-93): keyword text plus
vector queries plus `top`. -/
structure SearchRequest where
  search_text : String
  vector_queries : List VectorizedQuery
  top : Nat
deriving DecidableEq

/-- Oracles for the three remote services called by `app.py`: the LangChain
chat client (`primary_llm.invoke(...).content`), the Azure OpenAI embeddings
endpoint (`aoai_client.embeddings.create(input=..., model=...)`, returning one
embedding per input), and the Azure AI Search client.  The search oracle also
receives the endpoint, index name and key that the `SearchClient` is
constructed with inside `get_context`, so that request-time consumption of
configuration is visible.  `Except.error` models a raised exception. -/
structure Oracle where
  llm : List Message → Except String String
  embeddings_create : List String → String → Except String (List Embedding)
  search : Option String → Option String → Option String → SearchRequest →
    Except String (List SearchDoc)

/-- Module initialization of `app.py` (lines 13-46): the six environment
values are read and stored.  The application code itself performs no check on
any of them (the vendor clients constructed here are modelled by `Oracle`);
in particular the three search values are only stored, their first real use
being the `SearchClient` construction inside `get_context` during a request. -/
def app_init (env : Env) : Except String AppConfig :=
  Except.ok ⟨env.aoai_deployment, env.aoai_key, env.aoai_endpoint,
    env.azure_search_endpoint, env.azure_search_key, env.azure_search_index⟩

/-- Embedding generation (`generate_embeddings`, `app.py` lines 61-63):
returns `aoai_client.embeddings.create(input=[text], model=model)
.data[0].embedding`; the `[0]` access on an empty result raises.  The Python
default argument `model="text-embedding-ada-002"` is passed explicitly by the
call site here. -/
def generate_embeddings (o : Oracle) (text model : String) : Except String Embedding :=
  match o.embeddings_create [text] model with
  | Except.error e => Except.error e
  | Except.ok data =>
    match data with
    | [] => Except.error "IndexError: list index out of range"
    | d :: _ => Except.ok d

/-- Messages sent by the query-translation step of `get_context`
(`app.py` lines 70-73). -/
def query_translation_messages (user_input : String) : List Message :=
  [⟨"system", QUERY_TRANSLATION_PROMPT⟩, ⟨"user", user_input⟩]

/-- Query-translation step of `get_context` (`app.py` line 74):
`search_query = primary_llm.invoke(messages).content`, with no error handling
and no post-processing of the returned content. -/
def translate_user_query (o : Oracle) (user_input : String) : Except String String :=
  o.llm (query_translation_messages user_input)

/-- Retrieval (`get_context`, `app.py` lines 65-104): translate the query,
embed it, run one hybrid search with `top=3` and `k_nearest_neighbors=3`, and
collect the results into dictionaries holding only `filename` and `content`
(the score is printed, line 98, but not stored).  There is no `try/except`
anywhere in the function: every failure propagates. -/
def get_context (cfg : AppConfig) (o : Oracle) (user_input : String) :
    Except String (List Dict) :=
  match translate_user_query o user_input with
  | Except.error e => Except.error e
  | Except.ok search_query =>
    match generate_embeddings o search_query "text-embedding-ada-002" with
    | Except.error e => Except.error e
    | Except.ok query_vector =>
      match o.search cfg.search_endpoint cfg.search_index cfg.search_key
          ⟨search_query, [⟨query_vector, 3, "contentVector"⟩], 3⟩ with
      | Except.error e => Except.error e
      | Except.ok results =>
        Except.ok (results.map fun source =>
          [("filename", source.id), ("content", source.content)])

/-- JSON object returned by the `/chat` endpoint (`final_response`, lines
131-134), also the shape consumed by the evaluation harness as
`api_response`. -/
structure FinalResponse where
  response : String
  context : List Dict
deriving DecidableEq

/-- Context text for the generation prompt (`app.py` line 116): newline-join
of `filename: content` per item. -/
def rag_context_text (context : List Dict) : String :=
  pyJoin "\n" (context.map fun item => dget item "filename" ++ ": " ++ dget item "content")

/-- Messages for the answer-generation call (`app.py` lines 119-124). -/
def rag_messages (user_input : String) (context : List Dict) : List Message :=
  [⟨"system", RAG_SYSTEM_PROMPT⟩,
   ⟨"user", "Context: " ++ rag_context_text context ++ "\n\nUser Input: " ++ user_input⟩]

/-- The `/chat` handler (`app.py` lines 106-136).  `body` is the request JSON;
`request.json.get("user_input", "")` is the only read of the body and performs
no validation (a missing field defaults to the empty string).  The retrieved
context is used verbatim both to build the generation prompt and as the
`context` field of the response. -/
def chat (cfg : AppConfig) (o : Oracle) (body : Dict) : Except String FinalResponse :=
  let user_input := (List.lookup "user_input" body).getD ""
  match get_context cfg o user_input with
  | Except.error e => Except.error e
  | Except.ok context =>
    match o.llm (rag_messages user_input context) with
    | Except.error e => Except.error e
    | Except.ok response => Except.ok ⟨response, context⟩
/-- System message used by `run_evaluation` (`evaluate.py` line 217). -/
def evaluation_system_message : String :=
  "You are an AI assistant evaluating the quality of answers."

/-- Placeholder substitution performed by `run_evaluation` (`evaluate.py`
lines 211-214): four successive literal `str.replace` passes whose target
tokens carry a single pair of braces (the templates write the placeholders
with double braces). -/
def run_evaluation_formatted (prompty question context answer ground_truth : String) :
    String :=
  pyReplace (pyReplace (pyReplace (pyReplace prompty "\x7bquestion\x7d" question)
    "\x7bcontext\x7d" context) "\x7banswer\x7d" answer) "\x7bground_truth\x7d" ground_truth

/-- Message list sent by `run_evaluation` (`evaluate.py` lines 216-219): one
system turn and the substituted template as a single user turn. -/
def run_evaluation_messages (prompty question context answer ground_truth : String) :
    List Message :=
  [⟨"system", evaluation_system_message⟩,
   ⟨"user", run_evaluation_formatted prompty question context answer ground_truth⟩]

/-- One rubric evaluation (`run_evaluation`, `evaluate.py` lines 210-224):
a single chat-model call on the substituted template, returning the reply
content.  The `metric` argument is only printed in the source. -/
def run_evaluation (llm : List Message → String)
    (prompty question context answer ground_truth _metric : String) : String :=
  llm (run_evaluation_messages prompty question context answer ground_truth)

/-- Context string built by `run_evaluations` (`evaluate.py` line 232). -/
def run_evaluations_context (api_response : FinalResponse) : String :=
  pyJoin "\n" (api_response.context.enum.map fun p =>
    "Source " ++ Nat.repr (p.1 + 1) ++ " - " ++ dget p.2 "content")

/-- The rubric-result dictionary built by `run_evaluations` (`evaluate.py`
lines 244-250), modelled as an association list in Python dict insertion
order.  The dictionary values are evaluated in source order, so this list
order is also the order of the chat-model calls.  The don't-know rubric of
line 247 is commented out in the source and therefore absent. -/
def run_evaluations (llm : List Message → String)
    (question ground_truth : String) (api_response : FinalResponse) :
    List (String × String) :=
  let context := run_evaluations_context api_response
  [("Quality",
      run_evaluation llm quality_prompt question context api_response.response "" "Quality"),
   ("Correctness",
      run_evaluation llm correctness_prompt question context api_response.response
        ground_truth "Correctness"),
   ("Focus",
      run_evaluation llm focus_prompt question context api_response.response "" "Focus"),
   ("Retrieval Relevance",
      run_evaluation llm retrieval_relevance_prompt question context api_response.response
        "" "Retrieval Relevance")]

/-- Rationale extraction used when printing each metric (`evaluate.py` line
254): `result.split("thoughts:", 1)[-1].split("stars:", 1)[0].strip()`.
Python `[-1]` is the last element of the one- or two-element split result and
`[0]` the first. -/
def parse_thoughts (result : String) : String :=
  pyStrip (((pySplit1 ((pySplit1 result "thoughts:").getLastD "") "stars:").headD ""))

/-- Rating extraction used when printing (`evaluate.py` lines 255 and 261):
`result.split("stars:", 1)[-1].strip()`. -/
def parse_stars (result : String) : String :=
  pyStrip ((pySplit1 result "stars:").getLastD "")

/-- Structured extraction helper (`extract_evaluation_output`, `evaluate.py`
lines 276-286).  The two containment guards are case-insensitive
(`evaluation.lower()`), the splits are case-sensitive, and each `[1]` list
access can raise `IndexError`, modelled by `Except.error`.  The result pair
is `(thoughts, stars)`. -/
def extract_evaluation_output (evaluation : String) : Except String (String × String) := do
  let thoughts ←
    if pyContains (pyLower evaluation) "thoughts:" then do
      let t ← pyIndex (pySplit1 evaluation "thoughts:") 1
      pure (pyStrip ((pySplit1 t "stars:").headD ""))
    else
      pure ""
  let stars ←
    if pyContains (pyLower evaluation) "stars:" then do
      let t ← pyIndex (pySplit1 evaluation "stars:") 1
      pure (pyStrip t)
    else
      pure "N/A"
  pure (thoughts, stars)

/-- Modelled from the spec: the substitution the spec describes, replacing the
double-braced placeholder tokens themselves so that no placeholder residue
surrounds the substituted value. -/
def spec_substitute (prompty question context answer ground_truth : String) : String :=
  pyReplace (pyReplace (pyReplace (pyReplace prompty "\x7b\x7bquestion\x7d\x7d" question)
    "\x7b\x7bcontext\x7d\x7d" context) "\x7b\x7banswer\x7d\x7d" answer)
    "\x7b\x7bground_truth\x7d\x7d" ground_truth

/-- Modelled from the spec: the rating as the spec describes it, namely
everything after the LAST `stars:` marker, trimmed. -/
def spec_stars_last (result : String) : String :=
  pyStrip ((pyRSplit1 result "stars:").getLastD "")

/-- Modelled from the spec: the rationale as the spec describes it, namely the
text strictly between the `thoughts:` marker and the LAST `stars:` marker,
trimmed. -/
def spec_thoughts_last (result : String) : String :=
  pyStrip ((pyRSplit1 ((pySplit1 result "thoughts:").getLastD "") "stars:").headD "")
/-- Concrete text of `correctness_prompt` before its question placeholder, ending in the outer opening brace of the placeholder. -/
def cp1 : String :=
  "You are an AI evaluator. \nThe \"correctness metric\" is a measure of if the generated answer is correct based on the ground truth answer. You will be given the generated answer and the ground truth answer. You need to compare them and score the content between one to five stars using the following rating scale:\nOne star: The answer is incorrect\nThree stars: The answer is partially correct, but could be missing some key context or nuance that makes it potentially misleading or incomplete compared with the ground truth.  \nFive stars: The answer is correct\n\nThis rating value should always be either 1, 3, or 5. \n\n\nquestion: What does my healthcare plan cost per month?\ntruth: Your healthcare plan costs $200 per month\nanswer: Your healthcare plan costs $200 per month\nthoughts: The answer is correct, so it should be rated 5 stars.\nstars: 5\n\nquestion: What does my healthcare plan cost per month?\ntruth: Your healthcare plan costs $100 per month\nanswer: Your healthcare plan costs $200 per month\nthoughts: The costs differ between the truth and the answer, so it is completely incorrect, so it should be rated 1 star.\nstars: 1\n\n\nquestion: \x7b"

/-- Concrete text of `correctness_prompt` between the question and ground-truth placeholders, carrying the surrounding outer braces. -/
def cp2 : String :=
  "\x7d\nground_truth: \x7b"

/-- Concrete text of `correctness_prompt` between the ground-truth and answer placeholders, carrying the surrounding outer braces. -/
def cp3 : String :=
  "\x7d\nanswer: \x7b"

/-- Concrete text of `correctness_prompt` after the answer placeholder, starting with its outer closing brace. -/
def cp4 : String :=
  "\x7d\nthoughts:\nstars:\n"

/-- Concrete text piece 1 of `quality_prompt` around its placeholder block; the adjacent pieces carry the residual outer braces of the placeholders. -/
def qp1 : String :=
  "You are an AI evaluator. \nThe \"quality\" metric is a measure of how well the generated answer adheres to the quality standards. The quality standards are as follows:\n1. Clarity: The information should be presented in a clear, concise, and understandable manner, avoiding unnecessary jargon or complexity.\n2. Tone: The tone of the answer should be appropriate for the context and audience, maintaining a professional and respectful demeanor.\n3. Persona: The answer should be consistent with the persona of the AI assistant, reflecting the expected behavior and characteristics. In our case, the AI assistant is here to help with healthcare and employee-handbook questions.\n4. Helpfulness: The answer should try to be as helpful as possible. It should provide relevant information from the context and never be lazy. \n\nScore the answer between one to five stars. One star indicates poor quality, while five stars indicate excellent quality.\n\n\nquestion: What does my healthcare plan cost per month?\ncontext: Your healthcare plan costs $100 per month. Your dental coverage includes two cleanings per year, and your vision coverage includes an annual eye exam and a $150 allowance for frames or contact lenses. You can choose between a PPO and an HMO plan, with the PPO offering more flexibility in choosing healthcare providers and the HMO providing lower out-of-pocket costs. The plan also includes a prescription drug benefit with a $10 copay for generic drugs and a $30 copay for brand-name drugs. In addition, you have access to a telemedicine service for virtual doctor visits at no additional cost.\nanswer: $100, check the sources for more information.\nthoughts: The answer is too short and does not adequetly address the question. The answer sounds terse and unhelpful. It is also being lazy and directing the user to check the sources even though it has all the relevant context. It should be rated 1 star.\nstars: 1\n\nquestion: What does my healthcare plan cost per month?\ncontext: Your healthcare plan costs $100 per month. In the bustling streets of Tokyo, the latest advancements in robotics are seamlessly integrated into daily life, from automated restaurant servers to sophisticated cleaning robots in public spaces. Meanwhile, halfway across the world, the serene landscapes of southern Pennsylvania are a haven for nature enthusiasts, boasting picturesque hiking trails and abundant wildlife. As the world becomes more interconnected, the field of renewable energy continues to evolve, with innovations like floating solar farms and advanced wind turbines pushing the boundaries of sustainable power generation. Amidst these technological and environmental shifts, the art world remains ever vibrant, with contemporary artists drawing inspiration from these changes to create thought-provoking works that challenge societal norms and provoke deep reflection. \nanswer: Your healthcare plan costs $100 per month. It includes dental coverage for two cleanings per year and vision coverage with an annual eye exam and a $150 allowance for frames or contact lenses. You can choose between a PPO and an HMO plan; the PPO offers more flexibility in selecting healthcare providers, while the HMO has lower out-of-pocket costs. The plan also includes a prescription drug benefit, with a $10 copay for generic drugs and a $30 copay for brand-name drugs. Additionally, you have access to a telemedicine service for virtual doctor visits at no extra cost.\nthoughts: The answer is clear, detailed, and provides all the relevant information from the context. It is helpful and addresses the question effectively. It should be rated 5 stars.\nstars: 5\n\n\nquestion: \x7b"

/-- Concrete text piece 2 of `quality_prompt` around its placeholder block; the adjacent pieces carry the residual outer braces of the placeholders. -/
def qp2 : String :=
  "\x7d\ncontext: \x7b"

/-- Concrete text piece 3 of `quality_prompt` around its placeholder block; the adjacent pieces carry the residual outer braces of the placeholders. -/
def qp3 : String :=
  "\x7d\nanswer: \x7b"

/-- Concrete text piece 4 of `quality_prompt` around its placeholder block; the adjacent pieces carry the residual outer braces of the placeholders. -/
def qp4 : String :=
  "\x7d\nthoughts:\nstars:\n"

/-- Concrete text piece 1 of `focus_prompt` around its placeholder block; the adjacent pieces carry the residual outer braces of the placeholders. -/
def fp1 : String :=
  "You are an AI evaluator.\nThe \"focus\" metric is a measure of how well the generated answer ignores irrelevant information in the context and focuses on the relevant content. Score the answer between one to five stars using the following rating scale:\nOne star: The answer contains a significant amount of irrelevant information. Almost all of the irrelevant information from the context is included in the answer. \nTwo stars: The answer contains some irrelevant information. Approximately half of the irrelevant information from the context is included in the answer.\nThree stars: The answer contains a moderate amount of irrelevant information. A few pieces of irrelevant information from the context are included in the answer, but the majority of the answer is relevant.\nFour stars: The answer ignores almost all of the irrelevant content, but some minor irrelevant information is included. \nFive stars: The answer ignores all irrelevant information and focuses only on the relevant content. \n\n\nquestion: What does my healthcare plan cost per month?\ncontext: Your healthcare plan costs $100 per month. In the bustling streets of Tokyo, the latest advancements in robotics are seamlessly integrated into daily life, from automated restaurant servers to sophisticated cleaning robots in public spaces. Meanwhile, halfway across the world, the serene landscapes of southern Pennsylvania are a haven for nature enthusiasts, boasting picturesque hiking trails and abundant wildlife. As the world becomes more interconnected, the field of renewable energy continues to evolve, with innovations like floating solar farms and advanced wind turbines pushing the boundaries of sustainable power generation. Amidst these technological and environmental shifts, the art world remains ever vibrant, with contemporary artists drawing inspiration from these changes to create thought-provoking works that challenge societal norms and provoke deep reflection. \nanswer: Your healthcare plan costs $100 per month. The context also mentions various other topics: the integration of robotics into daily life in Tokyo, the natural beauty of southern Pennsylvania, advancements in renewable energy like floating solar farms and advanced wind turbines, and the influence of these technological and environmental changes on contemporary art.\nthoughts: The context contains an answer to the healthcare plan cost question which is relevant, but also a large amount of irrelevant content. The answer mentions of all the irrelevant information from the context, so it should be rated 1 star.\nstars: 1\n\nquestion: What does my healthcare plan cost per month?\ncontext: Your healthcare plan costs $100 per month. In the bustling streets of Tokyo, the latest advancements in robotics are seamlessly integrated into daily life, from automated restaurant servers to sophisticated cleaning robots in public spaces. Meanwhile, halfway across the world, the serene landscapes of southern Pennsylvania are a haven for nature enthusiasts, boasting picturesque hiking trails and abundant wildlife. As the world becomes more interconnected, the field of renewable energy continues to evolve, with innovations like floating solar farms and advanced wind turbines pushing the boundaries of sustainable power generation. Amidst these technological and environmental shifts, the art world remains ever vibrant, with contemporary artists drawing inspiration from these changes to create thought-provoking works that challenge societal norms and provoke deep reflection. \nanswer: Your healthcare plan costs $100 per month. The field of renewable energy continues to evolve, which may have an impact on the cost of your healthcare plan in the future.\nthoughts: The context contains an answer to the healthcare plan cost question which is relevant, but also some irrelevant content. The answer includes a piece of irrelevant information about renewable energy, so it should be rated 2 stars.\nstars: 2\n\nquestion: What does my healthcare plan cost per month?\ncontext: Your healthcare plan costs $100 per month. In the bustling streets of Tokyo, the latest advancements in robotics are seamlessly integrated into daily life, from automated restaurant servers to sophisticated cleaning robots in public spaces. Meanwhile, halfway across the world, the serene landscapes of southern Pennsylvania are a haven for nature enthusiasts, boasting picturesque hiking trails and abundant wildlife. As the world becomes more interconnected, the field of renewable energy continues to evolve, with innovations like floating solar farms and advanced wind turbines pushing the boundaries of sustainable power generation. Amidst these technological and environmental shifts, the art world remains ever vibrant, with contemporary artists drawing inspiration from these changes to create thought-provoking works that challenge societal norms and provoke deep reflection. \nanswer: Your healthcare plan costs $100 per month. \nthoughts: The context contains an answer to the healthcare plan cost question which is relevant and the answer is focused only on the relevant content. No irrelevant content made it through. It should be rated 5 stars.\nstars: 5\n\n\n\nquestion: \x7b"

/-- Concrete text piece 2 of `focus_prompt` around its placeholder block; the adjacent pieces carry the residual outer braces of the placeholders. -/
def fp2 : String :=
  "\x7d\ncontext: \x7b"

/-- Concrete text piece 3 of `focus_prompt` around its placeholder block; the adjacent pieces carry the residual outer braces of the placeholders. -/
def fp3 : String :=
  "\x7d\nanswer: \x7b"

/-- Concrete text piece 4 of `focus_prompt` around its placeholder block; the adjacent pieces carry the residual outer braces of the placeholders. -/
def fp4 : String :=
  "\x7d\nthoughts:\nstars:\n"

/-- Concrete text piece 1 of `retrieval_relevance_prompt` around its placeholder block; the adjacent pieces carry the residual outer braces of the placeholders. -/
def rp1 : String :=
  "You are an AI evaluator. \nThe \"Retrieval Relevance metric is a measure of how relevant the provided context is to the user question. Score the content between one to five stars using the following rating scale:\nOne star: None of the content is relevant\nTwo stars: A small portion of the content is relevant\nThree stars: Approximately half of the content is relevant\nFour stars: The majority of the content is relevant\nFive stars: All of the content is relevant\n\nThis rating value should always be an integer between 1 and 5. So the rating produced should be 1 or 2 or 3 or 4 or 5.\n\nquestion: What does my healthcare plan say about Eye & Dental?\nContext: \nSource 1 - The main goals of the Perseverance Mars rover mission are to search for signs of ancient life and collect rock and soil samples for possible return to Earth.\nSource 2 - Marie Curie excelled in the field of science.\nSource 3 - The sky is blue\nthoughts: The first source is completely unrelated to the question. The second source is also irrelevant. The third source is also irrelevant. Therefore, the rating should be 1 star.\nstars: 1\n\nquestion: What does my healthcare plan say about Eye & Dental?\nContext: \nSource 1 - Your healthcare plan covers eye and dental care [employee benefits handbook]\nSource 2 - You receive benefits up to $500 for eye and dental care annually [employee benefits handbook]\nSource 3 - You can visit any dentist or optometrist in the network for eye and dental care [employee benefits handbook]\nthoughts: The first source talks about eye and dental care which is relevant to the question.  The second source also talks about eye and dental care. The third source also talks about eye and dental care. Therefore, the rating should be 5 stars.\nstars: 5\n\n\nquestion: \x7b"

/-- Concrete text piece 2 of `retrieval_relevance_prompt` around its placeholder block; the adjacent pieces carry the residual outer braces of the placeholders. -/
def rp2 : String :=
  "\x7d\ncontext: \x7b"

/-- Concrete text piece 3 of `retrieval_relevance_prompt` around its placeholder block; the adjacent pieces carry the residual outer braces of the placeholders. -/
def rp3 : String :=
  "\x7d\nstars:\n"

/-- Concrete configuration with every value present, used by witnesses. -/
def cfg0 : AppConfig :=
  ⟨some "gpt-4o", some "key", some "https://aoai", some "https://search",
   some "skey", some "idx"⟩

/-- Concrete environment with every value present except the search index. -/
def env0 : Env :=
  ⟨some "gpt-4o", some "key", some "https://aoai", some "https://search",
   some "skey", none⟩

/-- Oracle whose embedding call fails while the chat call succeeds. -/
def oracleEmbedFail : Oracle :=
  ⟨fun _ => Except.ok "translated query", fun _ _ => Except.error "boom",
   fun _ _ _ _ => Except.ok []⟩

/-- Oracle whose chat call succeeds with an empty reply content. -/
def oracleEmptyReply : Oracle :=
  ⟨fun _ => Except.ok "", fun _ _ => Except.ok [[1]],
   fun _ _ _ _ => Except.ok []⟩

/-- Oracle for which every call succeeds, with one search hit carrying a
nonzero relevance score. -/
def oracleOk : Oracle :=
  ⟨fun _ => Except.ok "translated query", fun _ _ => Except.ok [[1, 2]],
   fun _ _ _ _ => Except.ok [⟨"doc1", "text1", 7⟩]⟩

/-- Oracle whose chat call echoes the content of the last message it is sent,
making the prompt that was sent visible in the reply. -/
def oracleEcho : Oracle :=
  ⟨fun msgs => Except.ok ((msgs.getLastD ⟨"", ""⟩).content),
   fun _ _ => Except.ok [[1]],
   fun _ _ _ _ => Except.ok [⟨"doc1", "text1", 7⟩]⟩
theorem bool_not_true {b : Bool} (h : ¬ b = true) : b = false := by
  cases b
  · rfl
  · exact absurd rfl h

theorem bool_bang_true {b : Bool} (h : (!b) = true) : b = false := by
  cases b
  · rfl
  · exact absurd h (by simp)

theorem data_append : ∀ (a b : String), (a ++ b).data = a.data ++ b.data
  | ⟨_⟩, ⟨_⟩ => rfl

theorem replaceAllAux_fuel (sep repl : List Char) :
    ∀ (f₁ : Nat) (s : List Char) (f₂ : Nat), s.length ≤ f₁ → s.length ≤ f₂ →
      replaceAllAux sep repl f₁ s = replaceAllAux sep repl f₂ s := by
  intro f₁
  induction f₁ with
  | zero =>
    intro s f₂ h1 _
    have hs : s = [] := List.eq_nil_of_length_eq_zero (Nat.le_zero.mp h1)
    subst hs
    cases f₂ <;> rfl
  | succ f ih =>
    intro s f₂ h1 h2
    cases s with
    | nil => cases f₂ <;> rfl
    | cons c rest =>
      cases f₂ with
      | zero => simp [List.length_cons] at h2
      | succ g =>
        simp only [replaceAllAux]
        by_cases hc : (!sep.isEmpty && sep.isPrefixOf (c :: rest)) = true
        · rw [if_pos hc, if_pos hc]
          have hsep : 1 ≤ sep.length := by
            cases sep with
            | nil => simp at hc
            | cons x xs => simp [List.length_cons]
          have hd : ((c :: rest).drop sep.length).length ≤ f := by
            rw [List.length_drop]
            simp only [List.length_cons] at h1 ⊢
            omega
          have hd2 : ((c :: rest).drop sep.length).length ≤ g := by
            rw [List.length_drop]
            simp only [List.length_cons] at h2 ⊢
            omega
          rw [ih _ _ hd hd2]
        · rw [if_neg hc, if_neg hc]
          have hr : rest.length ≤ f := by
            simp only [List.length_cons] at h1; omega
          have hr2 : rest.length ≤ g := by
            simp only [List.length_cons] at h2; omega
          rw [ih _ _ hr hr2]

theorem replaceAllL_cons_pos (sep repl : List Char) (c : Char) (rest : List Char)
    (hne : sep ≠ []) (hp : sep.isPrefixOf (c :: rest) = true) :
    replaceAllL sep repl (c :: rest) =
      repl ++ replaceAllL sep repl ((c :: rest).drop sep.length) := by
  have hcond : (!sep.isEmpty && sep.isPrefixOf (c :: rest)) = true := by
    cases sep with
    | nil => exact absurd rfl hne
    | cons x xs => simp [hp]
  have hsep : 1 ≤ sep.length := by
    cases sep with
    | nil => exact absurd rfl hne
    | cons x xs => simp [List.length_cons]
  unfold replaceAllL
  simp only [List.length_cons, replaceAllAux]
  rw [if_pos hcond]
  congr 1
  apply replaceAllAux_fuel
  · rw [List.length_drop]
    simp only [List.length_cons]
    omega
  · exact Nat.le_refl _

theorem replaceAllL_cons_neg (sep repl : List Char) (c : Char) (rest : List Char)
    (hp : sep.isPrefixOf (c :: rest) = false) :
    replaceAllL sep repl (c :: rest) = c :: replaceAllL sep repl rest := by
  unfold replaceAllL
  simp only [List.length_cons, replaceAllAux]
  rw [if_neg (by simp [hp])]

theorem findFirstSplit_cons_none {sep : List Char} {c : Char} {rest : List Char}
    (h : findFirstSplit sep (c :: rest) = none) :
    sep.isPrefixOf (c :: rest) = false ∧ findFirstSplit sep rest = none := by
  unfold findFirstSplit at h
  split at h
  · exact absurd h (by simp)
  · rename_i hp
    refine ⟨bool_not_true hp, ?_⟩
    split at h
    · exact absurd h (by simp)
    · assumption

theorem replaceAllL_of_not_contains (sep repl : List Char) :
    ∀ s : List Char, pyContainsL sep s = false → replaceAllL sep repl s = s := by
  intro s
  induction s with
  | nil => intro _; rfl
  | cons c rest ih =>
    intro h
    have hnone : findFirstSplit sep (c :: rest) = none := by
      unfold pyContainsL at h
      cases hx : findFirstSplit sep (c :: rest) with
      | none => rfl
      | some pq => rw [hx] at h; simp at h
    obtain ⟨hp, hrest⟩ := findFirstSplit_cons_none hnone
    rw [replaceAllL_cons_neg sep repl c rest hp]
    rw [ih (by unfold pyContainsL; rw [hrest]; rfl)]

theorem replaceAllL_firstSplit (sep repl : List Char) (hne : sep ≠ []) :
    ∀ (s pre post : List Char), findFirstSplit sep s = some (pre, post) →
      replaceAllL sep repl s = pre ++ repl ++ replaceAllL sep repl post := by
  intro s
  induction s with
  | nil => intro pre post h; exact absurd h (by simp [findFirstSplit])
  | cons c rest ih =>
    intro pre post h
    unfold findFirstSplit at h
    split at h
    · rename_i hp
      rw [Option.some.injEq, Prod.mk.injEq] at h
      obtain ⟨h1, h2⟩ := h
      subst h1
      subst h2
      rw [replaceAllL_cons_pos sep repl c rest hne hp]
      simp
    · rename_i hp
      split at h
      · rename_i p q heq
        rw [Option.some.injEq, Prod.mk.injEq] at h
        obtain ⟨h1, h2⟩ := h
        subst h1
        subst h2
        rw [replaceAllL_cons_neg sep repl c rest (bool_not_true hp)]
        rw [ih p q heq]
        simp
      · exact absurd h (by simp)

theorem isPrefixOf_append_self : ∀ (l t : List Char), l.isPrefixOf (l ++ t) = true := by
  intro l t
  induction l with
  | nil =>
    rw [List.nil_append]
    cases t <;> rfl
  | cons c cs ih => simp [List.isPrefixOf, ih]

theorem findFirstSplit_self_append (sep z : List Char) (hne : sep ≠ []) :
    findFirstSplit sep (sep ++ z) = some ([], z) := by
  cases sep with
  | nil => exact absurd rfl hne
  | cons a as =>
    have hpre : (a :: as).isPrefixOf (a :: (as ++ z)) = true := by
      rw [← List.cons_append]
      exact isPrefixOf_append_self (a :: as) z
    show findFirstSplit (a :: as) (a :: (as ++ z)) = some ([], z)
    simp only [findFirstSplit]
    rw [if_pos hpre]
    rw [List.length_cons, List.drop_succ_cons, List.drop_left]

theorem noOccurIn_cons {sep : List Char} {c : Char} {x y : List Char}
    (h : noOccurIn sep (c :: x) y = true) :
    sep.isPrefixOf (c :: (x ++ y)) = false ∧ noOccurIn sep x y = true := by
  unfold noOccurIn at h
  rw [Bool.and_eq_true] at h
  exact ⟨bool_bang_true h.1, h.2⟩

theorem findFirstSplit_append_right (sep : List Char) :
    ∀ (x y : List Char), noOccurIn sep x y = true →
      findFirstSplit sep (x ++ y) =
        match findFirstSplit sep y with
        | some (pre, post) => some (x ++ pre, post)
        | none => none := by
  intro x
  induction x with
  | nil =>
    intro y _
    simp only [List.nil_append]
    cases hy : findFirstSplit sep y with
    | none => simp
    | some pq => cases pq with | mk p q => simp
  | cons c x' ih =>
    intro y h
    obtain ⟨hp, hrec⟩ := noOccurIn_cons h
    show findFirstSplit sep (c :: (x' ++ y)) = _
    simp only [findFirstSplit]
    rw [if_neg (by simp [hp])]
    rw [ih y hrec]
    cases hy : findFirstSplit sep y with
    | none => rfl
    | some pq => cases pq with | mk p q => simp

theorem noOccurIn_append_left (sep : List Char) :
    ∀ (u v y : List Char), noOccurIn sep (u ++ v) y = true → noOccurIn sep v y = true := by
  intro u
  induction u with
  | nil => intro v y h; exact h
  | cons c u' ih =>
    intro v y h
    rw [List.cons_append] at h
    obtain ⟨_, h2⟩ := noOccurIn_cons h
    exact ih v y h2

theorem dropWhile_append_all {α : Type} (p : α → Bool) :
    ∀ (w y : List α), (∀ c ∈ w, p c = true) →
      List.dropWhile p (w ++ y) = List.dropWhile p y := by
  intro w
  induction w with
  | nil => intro y _; rfl
  | cons c w' ih =>
    intro y hw
    rw [List.cons_append, List.dropWhile_cons]
    rw [if_pos (hw c (List.mem_cons_self c w'))]
    exact ih y (fun d hd => hw d (List.mem_cons_of_mem c hd))

theorem dropWhile_append_of_ne {α : Type} (p : α → Bool) :
    ∀ (y w : List α), List.dropWhile p y ≠ [] →
      List.dropWhile p (y ++ w) = List.dropWhile p y ++ w := by
  intro y
  induction y with
  | nil => intro w h; exact absurd rfl h
  | cons c y' ih =>
    intro w h
    rw [List.dropWhile_cons] at h
    by_cases hc : p c = true
    · rw [if_pos hc] at h
      simp only [List.cons_append, List.dropWhile_cons, hc, if_true]
      exact ih w h
    · simp [List.cons_append, List.dropWhile_cons, bool_not_true hc]

theorem stripL_left_pad (w x : List Char) (hw : ∀ c ∈ w, pyWhite c = true) :
    stripL (w ++ x) = stripL x := by
  unfold stripL
  rw [dropWhile_append_all pyWhite w x hw]

theorem stripL_right_pad (x w : List Char) (hw : ∀ c ∈ w, pyWhite c = true) :
    stripL (x ++ w) = stripL x := by
  unfold stripL
  by_cases h : List.dropWhile pyWhite x = []
  · have hx : ∀ c ∈ x, pyWhite c = true := by
      rw [List.dropWhile_eq_nil_iff] at h
      exact h
    rw [dropWhile_append_all pyWhite x w hx]
    rw [h]
    rw [List.dropWhile_eq_nil_iff.mpr hw]
  · rw [dropWhile_append_of_ne pyWhite x w h]
    rw [List.reverse_append]
    rw [dropWhile_append_all pyWhite w.reverse _
      (by intro c hc; exact hw c (List.mem_reverse.mp hc))]

theorem stripL_pad (w₁ x w₂ : List Char) (h1 : ∀ c ∈ w₁, pyWhite c = true)
    (h2 : ∀ c ∈ w₂, pyWhite c = true) : stripL (w₁ ++ x ++ w₂) = stripL x := by
  rw [List.append_assoc]
  rw [stripL_left_pad w₁ (x ++ w₂) h1]
  rw [stripL_right_pad x w₂ h2]

theorem pySplit1_of_not_contains (s sep : String) (h : pyContains s sep = false) :
    pySplit1 s sep = [s] := by
  unfold pyContains pyContainsL at h
  unfold pySplit1 pySplit1L
  cases hx : findFirstSplit sep.data s.data with
  | none => rfl
  | some pq => rw [hx] at h; simp at h

theorem pySplit1_of_contains (s sep : String) (h : pyContains s sep = true) :
    ∃ pre post, pySplit1 s sep = [pre, post] := by
  unfold pyContains pyContainsL at h
  unfold pySplit1 pySplit1L
  cases hx : findFirstSplit sep.data s.data with
  | none => rw [hx] at h; simp at h
  | some pq =>
    cases pq with
    | mk p q => exact ⟨⟨p⟩, ⟨q⟩, rfl⟩

theorem data_mk (l : List Char) : (String.mk l).data = l := rfl

theorem pyReplace_def (s old new : String) :
    pyReplace s old new = String.mk (replaceAllL old.data new.data s.data) := rfl

theorem replaceAllL_single (tok val X Y : List Char) (hne : tok ≠ [])
    (hno : noOccurIn tok X (tok ++ Y) = true)
    (htail : pyContainsL tok Y = false) :
    replaceAllL tok val (X ++ (tok ++ Y)) = X ++ val ++ Y := by
  have hsplit : findFirstSplit tok (X ++ (tok ++ Y)) = some (X, Y) := by
    rw [findFirstSplit_append_right _ _ _ hno]
    rw [findFirstSplit_self_append _ _ hne]
    simp
  rw [replaceAllL_firstSplit _ val hne _ _ _ hsplit]
  rw [replaceAllL_of_not_contains _ _ _ htail]

theorem formatted_residue_qca (prompty P1 P2 P3 P4 q c a g : String)
    (hdec : prompty.data = P1.data ++ (("\x7bquestion\x7d" : String).data ++
      (P2.data ++ (("\x7bcontext\x7d" : String).data ++
        (P3.data ++ (("\x7banswer\x7d" : String).data ++ P4.data))))))
    (h1 : noOccurIn ("\x7bquestion\x7d" : String).data P1.data
      (("\x7bquestion\x7d" : String).data ++ (P2.data ++ (("\x7bcontext\x7d" : String).data ++
        (P3.data ++ (("\x7banswer\x7d" : String).data ++ P4.data))))) = true)
    (h1t : pyContainsL ("\x7bquestion\x7d" : String).data
      (P2.data ++ (("\x7bcontext\x7d" : String).data ++
        (P3.data ++ (("\x7banswer\x7d" : String).data ++ P4.data)))) = false)
    (h2 : noOccurIn ("\x7bcontext\x7d" : String).data (P1.data ++ q.data ++ P2.data)
      (("\x7bcontext\x7d" : String).data ++
        (P3.data ++ (("\x7banswer\x7d" : String).data ++ P4.data))) = true)
    (h2t : pyContainsL ("\x7bcontext\x7d" : String).data
      (P3.data ++ (("\x7banswer\x7d" : String).data ++ P4.data)) = false)
    (h3 : noOccurIn ("\x7banswer\x7d" : String).data
      (P1.data ++ q.data ++ P2.data ++ c.data ++ P3.data)
      (("\x7banswer\x7d" : String).data ++ P4.data) = true)
    (h3t : pyContainsL ("\x7banswer\x7d" : String).data P4.data = false)
    (h4 : pyContainsL ("\x7bground_truth\x7d" : String).data
      (P1.data ++ q.data ++ P2.data ++ c.data ++ P3.data ++ a.data ++ P4.data) = false) :
    run_evaluation_formatted prompty q c a g = P1 ++ q ++ P2 ++ c ++ P3 ++ a ++ P4 := by
  have hp1 : replaceAllL ("\x7bquestion\x7d" : String).data q.data prompty.data
      = P1.data ++ q.data ++ (P2.data ++ (("\x7bcontext\x7d" : String).data ++
          (P3.data ++ (("\x7banswer\x7d" : String).data ++ P4.data)))) := by
    rw [hdec]
    exact replaceAllL_single _ _ _ _ (by decide) h1 h1t
  have hre2 : P1.data ++ q.data ++ (P2.data ++ (("\x7bcontext\x7d" : String).data ++
        (P3.data ++ (("\x7banswer\x7d" : String).data ++ P4.data))))
      = (P1.data ++ q.data ++ P2.data) ++ (("\x7bcontext\x7d" : String).data ++
        (P3.data ++ (("\x7banswer\x7d" : String).data ++ P4.data))) := by
    simp [List.append_assoc]
  have hp2 : replaceAllL ("\x7bcontext\x7d" : String).data c.data
      (P1.data ++ q.data ++ (P2.data ++ (("\x7bcontext\x7d" : String).data ++
        (P3.data ++ (("\x7banswer\x7d" : String).data ++ P4.data)))))
      = P1.data ++ q.data ++ P2.data ++ c.data ++
          (P3.data ++ (("\x7banswer\x7d" : String).data ++ P4.data)) := by
    rw [hre2]
    exact replaceAllL_single _ _ _ _ (by decide) h2 h2t
  have hre3 : P1.data ++ q.data ++ P2.data ++ c.data ++
        (P3.data ++ (("\x7banswer\x7d" : String).data ++ P4.data))
      = (P1.data ++ q.data ++ P2.data ++ c.data ++ P3.data) ++
        (("\x7banswer\x7d" : String).data ++ P4.data) := by
    simp [List.append_assoc]
  have hp3 : replaceAllL ("\x7banswer\x7d" : String).data a.data
      (P1.data ++ q.data ++ P2.data ++ c.data ++
        (P3.data ++ (("\x7banswer\x7d" : String).data ++ P4.data)))
      = P1.data ++ q.data ++ P2.data ++ c.data ++ P3.data ++ a.data ++ P4.data := by
    rw [hre3]
    exact replaceAllL_single _ _ _ _ (by decide) h3 h3t
  have hp4 : replaceAllL ("\x7bground_truth\x7d" : String).data g.data
      (P1.data ++ q.data ++ P2.data ++ c.data ++ P3.data ++ a.data ++ P4.data)
      = P1.data ++ q.data ++ P2.data ++ c.data ++ P3.data ++ a.data ++ P4.data :=
    replaceAllL_of_not_contains _ _ _ h4
  unfold run_evaluation_formatted
  rw [pyReplace_def, pyReplace_def, pyReplace_def, pyReplace_def]
  simp only [data_mk]
  rw [hp1, hp2, hp3, hp4]
  have hdata : (P1 ++ q ++ P2 ++ c ++ P3 ++ a ++ P4).data
      = P1.data ++ q.data ++ P2.data ++ c.data ++ P3.data ++ a.data ++ P4.data := by
    simp only [data_append]
  rw [← hdata]

theorem formatted_residue_qga (prompty P1 P2 P3 P4 q c a g : String)
    (hdec : prompty.data = P1.data ++ (("\x7bquestion\x7d" : String).data ++
      (P2.data ++ (("\x7bground_truth\x7d" : String).data ++
        (P3.data ++ (("\x7banswer\x7d" : String).data ++ P4.data))))))
    (h1 : noOccurIn ("\x7bquestion\x7d" : String).data P1.data
      (("\x7bquestion\x7d" : String).data ++ (P2.data ++
        (("\x7bground_truth\x7d" : String).data ++
          (P3.data ++ (("\x7banswer\x7d" : String).data ++ P4.data))))) = true)
    (h1t : pyContainsL ("\x7bquestion\x7d" : String).data
      (P2.data ++ (("\x7bground_truth\x7d" : String).data ++
        (P3.data ++ (("\x7banswer\x7d" : String).data ++ P4.data)))) = false)
    (h2 : pyContainsL ("\x7bcontext\x7d" : String).data
      (P1.data ++ q.data ++ (P2.data ++ (("\x7bground_truth\x7d" : String).data ++
        (P3.data ++ (("\x7banswer\x7d" : String).data ++ P4.data))))) = false)
    (h3 : noOccurIn ("\x7banswer\x7d" : String).data
      (P1.data ++ q.data ++ P2.data ++ ("\x7bground_truth\x7d" : String).data ++ P3.data)
      (("\x7banswer\x7d" : String).data ++ P4.data) = true)
    (h3t : pyContainsL ("\x7banswer\x7d" : String).data P4.data = false)
    (h4 : noOccurIn ("\x7bground_truth\x7d" : String).data (P1.data ++ q.data ++ P2.data)
      (("\x7bground_truth\x7d" : String).data ++ (P3.data ++ a.data ++ P4.data)) = true)
    (h4t : pyContainsL ("\x7bground_truth\x7d" : String).data
      (P3.data ++ a.data ++ P4.data) = false) :
    run_evaluation_formatted prompty q c a g = P1 ++ q ++ P2 ++ g ++ P3 ++ a ++ P4 := by
  have hp1 : replaceAllL ("\x7bquestion\x7d" : String).data q.data prompty.data
      = P1.data ++ q.data ++ (P2.data ++ (("\x7bground_truth\x7d" : String).data ++
          (P3.data ++ (("\x7banswer\x7d" : String).data ++ P4.data)))) := by
    rw [hdec]
    exact replaceAllL_single _ _ _ _ (by decide) h1 h1t
  have hp2 : replaceAllL ("\x7bcontext\x7d" : String).data c.data
      (P1.data ++ q.data ++ (P2.data ++ (("\x7bground_truth\x7d" : String).data ++
        (P3.data ++ (("\x7banswer\x7d" : String).data ++ P4.data)))))
      = P1.data ++ q.data ++ (P2.data ++ (("\x7bground_truth\x7d" : String).data ++
          (P3.data ++ (("\x7banswer\x7d" : String).data ++ P4.data)))) :=
    replaceAllL_of_not_contains _ _ _ h2
  have hre3 : P1.data ++ q.data ++ (P2.data ++ (("\x7bground_truth\x7d" : String).data ++
        (P3.data ++ (("\x7banswer\x7d" : String).data ++ P4.data))))
      = (P1.data ++ q.data ++ P2.data ++ ("\x7bground_truth\x7d" : String).data ++ P3.data)
        ++ (("\x7banswer\x7d" : String).data ++ P4.data) := by
    simp [List.append_assoc]
  have hp3 : replaceAllL ("\x7banswer\x7d" : String).data a.data
      (P1.data ++ q.data ++ (P2.data ++ (("\x7bground_truth\x7d" : String).data ++
        (P3.data ++ (("\x7banswer\x7d" : String).data ++ P4.data)))))
      = P1.data ++ q.data ++ P2.data ++ ("\x7bground_truth\x7d" : String).data ++ P3.data
        ++ a.data ++ P4.data := by
    rw [hre3]
    exact replaceAllL_single _ _ _ _ (by decide) h3 h3t
  have hre4 : P1.data ++ q.data ++ P2.data ++ ("\x7bground_truth\x7d" : String).data
        ++ P3.data ++ a.data ++ P4.data
      = (P1.data ++ q.data ++ P2.data) ++ (("\x7bground_truth\x7d" : String).data ++
        (P3.data ++ a.data ++ P4.data)) := by
    simp [List.append_assoc]
  have hp4 : replaceAllL ("\x7bground_truth\x7d" : String).data g.data
      (P1.data ++ q.data ++ P2.data ++ ("\x7bground_truth\x7d" : String).data
        ++ P3.data ++ a.data ++ P4.data)
      = P1.data ++ q.data ++ P2.data ++ g.data ++ P3.data ++ a.data ++ P4.data := by
    rw [hre4]
    rw [replaceAllL_single _ _ _ _ (by decide) h4 h4t]
    simp [List.append_assoc]
  unfold run_evaluation_formatted
  rw [pyReplace_def, pyReplace_def, pyReplace_def, pyReplace_def]
  simp only [data_mk]
  rw [hp1, hp2, hp3, hp4]
  have hdata : (P1 ++ q ++ P2 ++ g ++ P3 ++ a ++ P4).data
      = P1.data ++ q.data ++ P2.data ++ g.data ++ P3.data ++ a.data ++ P4.data := by
    simp only [data_append]
  rw [← hdata]

theorem formatted_residue_qc (prompty P1 P2 P3 q c a g : String)
    (hdec : prompty.data = P1.data ++ (("\x7bquestion\x7d" : String).data ++
      (P2.data ++ (("\x7bcontext\x7d" : String).data ++ P3.data))))
    (h1 : noOccurIn ("\x7bquestion\x7d" : String).data P1.data
      (("\x7bquestion\x7d" : String).data ++ (P2.data ++
        (("\x7bcontext\x7d" : String).data ++ P3.data))) = true)
    (h1t : pyContainsL ("\x7bquestion\x7d" : String).data
      (P2.data ++ (("\x7bcontext\x7d" : String).data ++ P3.data)) = false)
    (h2 : noOccurIn ("\x7bcontext\x7d" : String).data (P1.data ++ q.data ++ P2.data)
      (("\x7bcontext\x7d" : String).data ++ P3.data) = true)
    (h2t : pyContainsL ("\x7bcontext\x7d" : String).data P3.data = false)
    (h3 : pyContainsL ("\x7banswer\x7d" : String).data
      (P1.data ++ q.data ++ P2.data ++ c.data ++ P3.data) = false)
    (h4 : pyContainsL ("\x7bground_truth\x7d" : String).data
      (P1.data ++ q.data ++ P2.data ++ c.data ++ P3.data) = false) :
    run_evaluation_formatted prompty q c a g = P1 ++ q ++ P2 ++ c ++ P3 := by
  have hp1 : replaceAllL ("\x7bquestion\x7d" : String).data q.data prompty.data
      = P1.data ++ q.data ++ (P2.data ++ (("\x7bcontext\x7d" : String).data ++ P3.data)) := by
    rw [hdec]
    exact replaceAllL_single _ _ _ _ (by decide) h1 h1t
  have hre2 : P1.data ++ q.data ++ (P2.data ++ (("\x7bcontext\x7d" : String).data ++ P3.data))
      = (P1.data ++ q.data ++ P2.data) ++
        (("\x7bcontext\x7d" : String).data ++ P3.data) := by
    simp [List.append_assoc]
  have hp2 : replaceAllL ("\x7bcontext\x7d" : String).data c.data
      (P1.data ++ q.data ++ (P2.data ++ (("\x7bcontext\x7d" : String).data ++ P3.data)))
      = P1.data ++ q.data ++ P2.data ++ c.data ++ P3.data := by
    rw [hre2]
    exact replaceAllL_single _ _ _ _ (by decide) h2 h2t
  have hp3 : replaceAllL ("\x7banswer\x7d" : String).data a.data
      (P1.data ++ q.data ++ P2.data ++ c.data ++ P3.data)
      = P1.data ++ q.data ++ P2.data ++ c.data ++ P3.data :=
    replaceAllL_of_not_contains _ _ _ h3
  have hp4 : replaceAllL ("\x7bground_truth\x7d" : String).data g.data
      (P1.data ++ q.data ++ P2.data ++ c.data ++ P3.data)
      = P1.data ++ q.data ++ P2.data ++ c.data ++ P3.data :=
    replaceAllL_of_not_contains _ _ _ h4
  unfold run_evaluation_formatted
  rw [pyReplace_def, pyReplace_def, pyReplace_def, pyReplace_def]
  simp only [data_mk]
  rw [hp1, hp2, hp3, hp4]
  have hdata : (P1 ++ q ++ P2 ++ c ++ P3).data
      = P1.data ++ q.data ++ P2.data ++ c.data ++ P3.data := by
    simp only [data_append]
  rw [← hdata]
/-- C1 counterexample: the claim says a failing embedding call is caught
inside retrieval and converted into an empty context list.  On the code,
with an oracle whose embedding call raises `boom` (and a successful query
translation), `get_context` propagates the error and does not return the
empty list. -/
theorem c1_counterexample :
    get_context cfg0 oracleEmbedFail "hi" = Except.error "boom" ∧
    get_context cfg0 oracleEmbedFail "hi" ≠ Except.ok [] :=
  ⟨rfl, fun h =>
    Except.noConfusion (h : (Except.error "boom" : Except String (List Dict)) = Except.ok [])⟩

/-- C1 (amended): there is no `try/except` in `get_context`; when the
embedding call fails, the failure propagates out of retrieval (and hence out
of the request) instead of being converted into an empty context list. -/
theorem c1_embedding_failure_propagates (cfg : AppConfig) (o : Oracle) (u e sq : String)
    (h1 : o.llm (query_translation_messages u) = Except.ok sq)
    (h2 : o.embeddings_create [sq] "text-embedding-ada-002" = Except.error e) :
    get_context cfg o u = Except.error e := by
  simp [get_context, translate_user_query, generate_embeddings, h1, h2]

/-- C1 witness: the propagation theorem at a concrete oracle. -/
theorem c1_witness : get_context cfg0 oracleEmbedFail "hi" = Except.error "boom" :=
  c1_embedding_failure_propagates cfg0 oracleEmbedFail "hi" "boom" "translated query" rfl rfl

/-- C4: whenever `chat` succeeds, the `context` field of its response is
exactly the list that `get_context` returned, and the generation call was
made on the prompt built from that very list, whose reply is the `response`
field: nothing reorders, truncates or mutates the context between retrieval
and the response. -/
theorem c4_context_echoed_exactly (cfg : AppConfig) (o : Oracle) (body : Dict)
    (fr : FinalResponse) (h : chat cfg o body = Except.ok fr) :
    get_context cfg o ((List.lookup "user_input" body).getD "") = Except.ok fr.context ∧
    o.llm (rag_messages ((List.lookup "user_input" body).getD "") fr.context) =
      Except.ok fr.response := by
  simp only [chat] at h
  cases hg : get_context cfg o ((List.lookup "user_input" body).getD "") with
  | error e =>
    rw [hg] at h
    simp at h
  | ok context =>
    rw [hg] at h
    have h2 : (match o.llm (rag_messages ((List.lookup "user_input" body).getD "") context) with
        | Except.error e => Except.error e
        | Except.ok response => Except.ok (⟨response, context⟩ : FinalResponse)) =
        Except.ok fr := h
    cases hl : o.llm (rag_messages ((List.lookup "user_input" body).getD "") context) with
    | error e =>
      rw [hl] at h2
      simp at h2
    | ok response =>
      rw [hl] at h2
      have h3 : (⟨response, context⟩ : FinalResponse) = fr := by
        injection h2
      rw [← h3]
      exact ⟨rfl, hl⟩

/-- C4 witness: the echo property at a concrete successful request. -/
theorem c4_witness :
    get_context cfg0 oracleOk "hello" =
      Except.ok [[("filename", "doc1"), ("content", "text1")]] ∧
    oracleOk.llm (rag_messages "hello" [[("filename", "doc1"), ("content", "text1")]]) =
      Except.ok "translated query" :=
  c4_context_echoed_exactly cfg0 oracleOk [("user_input", "hello")]
    ⟨"translated query", [[("filename", "doc1"), ("content", "text1")]]⟩ rfl

/-- C5 counterexample: the claim says every element of the returned result
list carries a `score` field.  On the code, a successful retrieval returns
items holding only `filename` and `content`: the provider-reported score
(here 7 for `doc1`) is not stored, so the `score` key is absent. -/
theorem c5_counterexample :
    get_context cfg0 oracleOk "hi" =
      Except.ok [[("filename", "doc1"), ("content", "text1")]] ∧
    List.lookup "score" [("filename", "doc1"), ("content", "text1")] = none :=
  ⟨rfl, rfl⟩

/-- C5 (amended): a successful retrieval returns one item per provider
result, in the provider order (so at most 3 when the provider honours
`top=3`), each item holding exactly `filename` and `content`; no `score`
field is present on the returned items. -/
theorem c5_context_shape (cfg : AppConfig) (o : Oracle) (u sq : String) (v : Embedding)
    (results : List SearchDoc)
    (h1 : o.llm (query_translation_messages u) = Except.ok sq)
    (h2 : o.embeddings_create [sq] "text-embedding-ada-002" = Except.ok [v])
    (h3 : o.search cfg.search_endpoint cfg.search_index cfg.search_key
        ⟨sq, [⟨v, 3, "contentVector"⟩], 3⟩ = Except.ok results) :
    get_context cfg o u =
      Except.ok (results.map fun source =>
        [("filename", source.id), ("content", source.content)]) ∧
    (results.map fun source =>
      [("filename", source.id), ("content", source.content)]).length = results.length ∧
    (results.length ≤ 3 →
      (results.map fun source =>
        [("filename", source.id), ("content", source.content)]).length ≤ 3) ∧
    (∀ i, (results.map fun source =>
        [("filename", source.id), ("content", source.content)]).get? i =
      (results.get? i).map fun source =>
        [("filename", source.id), ("content", source.content)]) ∧
    (∀ item ∈ (results.map fun source =>
        [("filename", source.id), ("content", source.content)]),
      List.lookup "score" item = none) := by
  refine ⟨?_, List.length_map _ _, ?_, ?_, ?_⟩
  · simp [get_context, translate_user_query, generate_embeddings, h1, h2, h3]
  · intro hlen
    rw [List.length_map]
    exact hlen
  · intro i
    exact List.get?_map _ _ i
  · intro item him
    obtain ⟨source, hs, hitem⟩ := List.mem_map.mp him
    rw [← hitem]
    rfl

/-- C5 witness: the shape theorem at a concrete oracle with one scored hit. -/
theorem c5_witness :
    get_context cfg0 oracleOk "hi" =
      Except.ok (([(⟨"doc1", "text1", 7⟩ : SearchDoc)]).map fun source =>
        [("filename", source.id), ("content", source.content)]) :=
  (c5_context_shape cfg0 oracleOk "hi" "translated query" [1, 2] [⟨"doc1", "text1", 7⟩]
    rfl rfl rfl).1

/-- C6 counterexample: the claim says a missing required configuration value
raises an error at startup, before any request.  On the code, module
initialization performs no validation: an environment lacking
`AZURE_SEARCH_INDEX` does not make initialization fail. -/
theorem c6_counterexample :
    ¬ (∀ env : Env, env.azure_search_index = none → ∃ e, app_init env = Except.error e) := by
  intro h
  obtain ⟨e, he⟩ := h env0 rfl
  exact Except.noConfusion (he : (Except.ok (⟨some "gpt-4o", some "key", some "https://aoai",
    some "https://search", some "skey", none⟩ : AppConfig) : Except String AppConfig) =
    Except.error e)

/-- C6 (amended): `app.py` validates nothing at startup; initialization
succeeds even with the search index unset, and the missing (`none`) index
value is first consumed at request time, by the search call that
`get_context` makes inside `/chat`. -/
theorem c6_no_startup_validation (env : Env) (hmiss : env.azure_search_index = none) :
    app_init env = Except.ok ⟨env.aoai_deployment, env.aoai_key, env.aoai_endpoint,
      env.azure_search_endpoint, env.azure_search_key, none⟩ ∧
    (∀ cfg : AppConfig, app_init env = Except.ok cfg →
      ∀ (o : Oracle) (u sq : String) (v : Embedding),
        o.llm (query_translation_messages u) = Except.ok sq →
        o.embeddings_create [sq] "text-embedding-ada-002" = Except.ok [v] →
        get_context cfg o u =
          (o.search env.azure_search_endpoint none env.azure_search_key
              ⟨sq, [⟨v, 3, "contentVector"⟩], 3⟩).map
            (List.map fun source => [("filename", source.id), ("content", source.content)])) := by
  constructor
  · rw [← hmiss]
    rfl
  · intro cfg hcfg o u sq v hllm hemb
    unfold app_init at hcfg
    have hcfg' : cfg = ⟨env.aoai_deployment, env.aoai_key, env.aoai_endpoint,
        env.azure_search_endpoint, env.azure_search_key, env.azure_search_index⟩ := by
      injection hcfg with h'
      exact h'.symm
    subst hcfg'
    cases hs : o.search env.azure_search_endpoint env.azure_search_index
        env.azure_search_key ⟨sq, [⟨v, 3, "contentVector"⟩], 3⟩ with
    | error e =>
      rw [hmiss] at hs
      simp [get_context, translate_user_query, generate_embeddings, hllm, hemb, hmiss, hs,
        Except.map]
    | ok rs =>
      rw [hmiss] at hs
      simp [get_context, translate_user_query, generate_embeddings, hllm, hemb, hmiss, hs,
        Except.map]

/-- C6 witness: initialization succeeds on the concrete environment missing
its search index. -/
theorem c6_witness :
    app_init env0 = Except.ok ⟨some "gpt-4o", some "key", some "https://aoai",
      some "https://search", some "skey", none⟩ :=
  (c6_no_startup_validation env0 rfl).1

/-- C7 counterexample: the claim says the query-translation step returns a
non-empty string whenever the chat provider succeeds.  The code returns the
provider content verbatim, so a provider that succeeds with empty content
makes the step return the empty string. -/
theorem c7_counterexample :
    ¬ (∀ (o : Oracle) (u s : String), translate_user_query o u = Except.ok s → s ≠ "") := by
  intro h
  exact h oracleEmptyReply "hello" "" rfl rfl

/-- C7 (amended): on provider success the query-translation step returns the
provider content verbatim (possibly empty) and that exact string becomes the
search text; on provider failure the failure propagates out of retrieval
instead of the original query being substituted. -/
theorem c7_verbatim_and_propagation (cfg : AppConfig) (o : Oracle) (u : String) :
    (∀ e, o.llm (query_translation_messages u) = Except.error e →
      get_context cfg o u = Except.error e) ∧
    (∀ s, o.llm (query_translation_messages u) = Except.ok s →
      translate_user_query o u = Except.ok s ∧
      get_context cfg o u =
        match generate_embeddings o s "text-embedding-ada-002" with
        | Except.error e => Except.error e
        | Except.ok v =>
          (o.search cfg.search_endpoint cfg.search_index cfg.search_key
              ⟨s, [⟨v, 3, "contentVector"⟩], 3⟩).map
            (List.map fun source => [("filename", source.id), ("content", source.content)])) := by
  constructor
  · intro e he
    simp [get_context, translate_user_query, he]
  · intro s hs
    refine ⟨by simp [translate_user_query, hs], ?_⟩
    cases hv : generate_embeddings o s "text-embedding-ada-002" with
    | error e =>
      simp [get_context, translate_user_query, hs, hv]
    | ok v =>
      cases hsearch : o.search cfg.search_endpoint cfg.search_index cfg.search_key
          ⟨s, [⟨v, 3, "contentVector"⟩], 3⟩ with
      | error e =>
        simp [get_context, translate_user_query, hs, hv, hsearch, Except.map]
      | ok rs =>
        simp [get_context, translate_user_query, hs, hv, hsearch, Except.map]

/-- C7 witness: the verbatim/propagation theorem applied at an oracle whose
translation reply is empty: the empty string is used as the search text. -/
theorem c7_witness :
    translate_user_query oracleEmptyReply "hello" = Except.ok "" ∧
    get_context cfg0 oracleEmptyReply "hello" = Except.ok [] := by
  have h := (c7_verbatim_and_propagation cfg0 oracleEmptyReply "hello").2 "" rfl
  exact ⟨h.1, by rw [h.2]; rfl⟩

/-- C8 counterexample: the claim says the user query is validated to be
non-empty before the pipeline consumes it.  On the code, a request body with
no `user_input` field at all defaults to the empty string and the whole
pipeline still runs on it: the echoed generation prompt even ends with the
empty user input. -/
theorem c8_counterexample :
    (List.lookup "user_input" ([] : Dict)).getD "" = "" ∧
    chat cfg0 oracleEcho [] =
      Except.ok ⟨"Context: doc1: text1\n\nUser Input: ",
        [[("filename", "doc1"), ("content", "text1")]]⟩ :=
  ⟨rfl, rfl⟩

/-- C8 (amended): `/chat` applies no validation at all to the query (a
missing field defaults to the empty string), and the query is consumed twice
per request: it is the user turn of the query-translation call and it is
embedded again at the end of the generation prompt. -/
theorem c8_no_validation_two_uses (cfg : AppConfig) (o : Oracle) (body : Dict)
    (sq ans : String) (v : Embedding) (results : List SearchDoc)
    (h1 : o.llm (query_translation_messages ((List.lookup "user_input" body).getD ""))
      = Except.ok sq)
    (h2 : o.embeddings_create [sq] "text-embedding-ada-002" = Except.ok [v])
    (h3 : o.search cfg.search_endpoint cfg.search_index cfg.search_key
        ⟨sq, [⟨v, 3, "contentVector"⟩], 3⟩ = Except.ok results)
    (h4 : o.llm (rag_messages ((List.lookup "user_input" body).getD "")
        (results.map fun source => [("filename", source.id), ("content", source.content)]))
      = Except.ok ans) :
    chat cfg o body = Except.ok ⟨ans, results.map fun source =>
      [("filename", source.id), ("content", source.content)]⟩ ∧
    (query_translation_messages ((List.lookup "user_input" body).getD "")).getLastD ⟨"", ""⟩ =
      ⟨"user", (List.lookup "user_input" body).getD ""⟩ ∧
    (rag_messages ((List.lookup "user_input" body).getD "")
        (results.map fun source => [("filename", source.id), ("content", source.content)])
      ).getLastD ⟨"", ""⟩ =
      ⟨"user", "Context: " ++ rag_context_text (results.map fun source =>
          [("filename", source.id), ("content", source.content)]) ++
        "\n\nUser Input: " ++ (List.lookup "user_input" body).getD ""⟩ := by
  refine ⟨?_, rfl, rfl⟩
  simp [chat, get_context, translate_user_query, generate_embeddings, h1, h2, h3, h4]

/-- C8 witness: the theorem at a concrete request carrying a query. -/
theorem c8_witness :
    chat cfg0 oracleOk [("user_input", "hello")] =
      Except.ok ⟨"translated query", [[("filename", "doc1"), ("content", "text1")]]⟩ :=
  (c8_no_validation_two_uses cfg0 oracleOk [("user_input", "hello")] "translated query"
    "translated query" [1, 2] [⟨"doc1", "text1", 7⟩] rfl rfl rfl rfl).1

/-- C9: per evaluated question the harness makes exactly four chat-model
calls, in the dictionary order Quality, Correctness, Focus, Retrieval
Relevance; the don't-know rubric (line 247 of the source) is commented out
and absent; and only the Correctness entry depends on the ground truth (the
other three entries are identical under any two ground-truth values, each
receiving the empty string in the ground-truth slot). -/
theorem c9_rubric_calls (llm : List Message → String) (q gt gt2 : String)
    (resp : FinalResponse) :
    (run_evaluations llm q gt resp).map Prod.fst =
      ["Quality", "Correctness", "Focus", "Retrieval Relevance"] ∧
    run_evaluations llm q gt resp =
      [("Quality", llm (run_evaluation_messages quality_prompt q
          (run_evaluations_context resp) resp.response "")),
       ("Correctness", llm (run_evaluation_messages correctness_prompt q
          (run_evaluations_context resp) resp.response gt)),
       ("Focus", llm (run_evaluation_messages focus_prompt q
          (run_evaluations_context resp) resp.response "")),
       ("Retrieval Relevance", llm (run_evaluation_messages retrieval_relevance_prompt q
          (run_evaluations_context resp) resp.response ""))] ∧
    (run_evaluations llm q gt resp).get? 0 = (run_evaluations llm q gt2 resp).get? 0 ∧
    (run_evaluations llm q gt resp).get? 2 = (run_evaluations llm q gt2 resp).get? 2 ∧
    (run_evaluations llm q gt resp).get? 3 = (run_evaluations llm q gt2 resp).get? 3 := by
  refine ⟨?_, ?_, ?_, ?_, ?_⟩
  · simp only [run_evaluations, List.map]
  · simp only [run_evaluations, run_evaluation]
  · simp [run_evaluations, run_evaluation]
  · simp [run_evaluations, run_evaluation]
  · simp [run_evaluations, run_evaluation]

/-- C10: `extract_evaluation_output` returns `("", "N/A")` when neither
marker occurs in any letter case, but raises `IndexError` when a marker
occurs only in a non-lowercase form: the case-insensitive containment check
passes while the case-sensitive split yields a single piece, so the `[1]`
access is out of range. -/
theorem c10_extract_partial_totality (s : String) :
    (pyContains (pyLower s) "thoughts:" = false → pyContains (pyLower s) "stars:" = false →
      extract_evaluation_output s = Except.ok ("", "N/A")) ∧
    (pyContains (pyLower s) "thoughts:" = true → pyContains s "thoughts:" = false →
      extract_evaluation_output s = Except.error "IndexError: list index out of range") ∧
    (pyContains (pyLower s) "stars:" = true → pyContains s "stars:" = false →
      extract_evaluation_output s = Except.error "IndexError: list index out of range") := by
  refine ⟨?_, ?_, ?_⟩
  · intro h1 h2
    simp [extract_evaluation_output, h1, h2, pure, Except.pure, Bind.bind, Except.bind]
  · intro h1 h2
    have hsp : pySplit1 s "thoughts:" = [s] := pySplit1_of_not_contains s "thoughts:" h2
    simp [extract_evaluation_output, h1, hsp, pyIndex, pure, Except.pure, Bind.bind,
      Except.bind, Functor.map, Except.map]
  · intro h1 h2
    have hsp2 : pySplit1 s "stars:" = [s] := pySplit1_of_not_contains s "stars:" h2
    by_cases ht : pyContains (pyLower s) "thoughts:" = true
    · by_cases hts : pyContains s "thoughts:" = true
      · obtain ⟨pre, post, hsp⟩ := pySplit1_of_contains s "thoughts:" hts
        simp [extract_evaluation_output, ht, h1, hsp, hsp2, pyIndex, pure, Except.pure,
          Bind.bind, Except.bind, Functor.map, Except.map]
      · have hts' : pyContains s "thoughts:" = false := bool_not_true hts
        have hsp : pySplit1 s "thoughts:" = [s] := pySplit1_of_not_contains s "thoughts:" hts'
        simp [extract_evaluation_output, ht, h1, hsp, hsp2, pyIndex, pure, Except.pure,
          Bind.bind, Except.bind, Functor.map, Except.map]
    · have ht' : pyContains (pyLower s) "thoughts:" = false := bool_not_true ht
      simp [extract_evaluation_output, ht', h1, hsp2, pyIndex, pure, Except.pure,
        Bind.bind, Except.bind, Functor.map, Except.map]

/-- C10 witness: both behaviours at concrete replies. -/
theorem c10_witness :
    extract_evaluation_output "no markers here" = Except.ok ("", "N/A") ∧
    extract_evaluation_output "Stars: 5" = Except.error "IndexError: list index out of range" :=
  ⟨(c10_extract_partial_totality "no markers here").1 (by decide) (by decide),
   (c10_extract_partial_totality "Stars: 5").2.2 (by decide) (by decide)⟩

/-- C2 counterexample: the claim says the rating is everything after the LAST
`stars:` marker and the rationale ends at the LAST `stars:` marker.  On a
reply with two `stars:` markers the code splits at the FIRST one. -/
theorem c2_counterexample :
    parse_stars "thoughts: A stars: 1 stars: 2" = "1 stars: 2" ∧
    spec_stars_last "thoughts: A stars: 1 stars: 2" = "2" ∧
    parse_stars "thoughts: A stars: 1 stars: 2" ≠
      spec_stars_last "thoughts: A stars: 1 stars: 2" ∧
    parse_thoughts "thoughts: A stars: 1 stars: 2" = "A" ∧
    spec_thoughts_last "thoughts: A stars: 1 stars: 2" = "A stars: 1" := by
  decide

/-- C2 (amended): for a reply of the shape `thoughts: A\nstars: B` in which no
spurious `stars:` occurrence precedes the real marker, the harness extracts
the rationale as the text strictly between `thoughts:` and the FIRST `stars:`
marker and the rating as everything after the FIRST `stars:` marker, trimmed;
the rating text is not validated, so when `B` itself contains further
`stars:` markers they stay inside the rating verbatim (first-marker, not
last-marker, semantics). -/
theorem c2_first_marker_extraction (A B : String)
    (h : noOccurIn ("stars:" : String).data ("thoughts: " ++ A ++ "\n").data
      ("stars: " ++ B).data = true) :
    parse_thoughts ("thoughts: " ++ A ++ "\nstars: " ++ B) = pyStrip A ∧
    parse_stars ("thoughts: " ++ A ++ "\nstars: " ++ B) = pyStrip B := by
  have l1 : ("thoughts: " : String).data
      = ("thoughts:" : String).data ++ (" " : String).data := rfl
  have l2 : ("\nstars: " : String).data
      = ("\n" : String).data ++ (("stars:" : String).data ++ (" " : String).data) := rfl
  have l3 : ("stars: " : String).data
      = ("stars:" : String).data ++ (" " : String).data := rfl
  have hn : noOccurIn ("stars:" : String).data
      (("thoughts:" : String).data ++ ((" " : String).data ++ (A.data ++ ("\n" : String).data)))
      (("stars:" : String).data ++ ((" " : String).data ++ B.data)) = true := by
    have e1 : ("thoughts: " ++ A ++ "\n").data
        = ("thoughts:" : String).data ++
          ((" " : String).data ++ (A.data ++ ("\n" : String).data)) := by
      simp [data_append, l1, List.append_assoc]
    have e2 : ("stars: " ++ B).data
        = ("stars:" : String).data ++ ((" " : String).data ++ B.data) := by
      simp [data_append, l3, List.append_assoc]
    rw [e1, e2] at h
    exact h
  have hx : noOccurIn ("stars:" : String).data
      ((" " : String).data ++ (A.data ++ ("\n" : String).data))
      (("stars:" : String).data ++ ((" " : String).data ++ B.data)) = true :=
    noOccurIn_append_left _ _ _ _ hn
  have hr2 : ("thoughts: " ++ A ++ "\nstars: " ++ B).data
      = ("thoughts:" : String).data ++
        ((" " : String).data ++ (A.data ++ (("\n" : String).data ++
          (("stars:" : String).data ++ ((" " : String).data ++ B.data))))) := by
    simp [data_append, l1, l2, List.append_assoc]
  have hsplit1 : findFirstSplit ("thoughts:" : String).data
      ("thoughts: " ++ A ++ "\nstars: " ++ B).data
      = some ([], (" " : String).data ++ (A.data ++ (("\n" : String).data ++
          (("stars:" : String).data ++ ((" " : String).data ++ B.data))))) := by
    rw [hr2]
    exact findFirstSplit_self_append _ _ (by decide)
  have step1 : (pySplit1 ("thoughts: " ++ A ++ "\nstars: " ++ B) "thoughts:").getLastD ""
      = ⟨(" " : String).data ++ (A.data ++ (("\n" : String).data ++
          (("stars:" : String).data ++ ((" " : String).data ++ B.data))))⟩ := by
    unfold pySplit1 pySplit1L
    rw [hsplit1]
    rfl
  have hregroup : (" " : String).data ++ (A.data ++ (("\n" : String).data ++
        (("stars:" : String).data ++ ((" " : String).data ++ B.data))))
      = ((" " : String).data ++ (A.data ++ ("\n" : String).data)) ++
        (("stars:" : String).data ++ ((" " : String).data ++ B.data)) := by
    simp [List.append_assoc]
  have hsplit2 : findFirstSplit ("stars:" : String).data
      ((" " : String).data ++ (A.data ++ (("\n" : String).data ++
        (("stars:" : String).data ++ ((" " : String).data ++ B.data)))))
      = some ((" " : String).data ++ (A.data ++ ("\n" : String).data),
          (" " : String).data ++ B.data) := by
    rw [hregroup]
    rw [findFirstSplit_append_right _ _ _ hx]
    rw [findFirstSplit_self_append _ _ (by decide)]
    simp
  have step2 : pySplit1 (⟨(" " : String).data ++ (A.data ++ (("\n" : String).data ++
        (("stars:" : String).data ++ ((" " : String).data ++ B.data))))⟩ : String) "stars:"
      = [⟨(" " : String).data ++ (A.data ++ ("\n" : String).data)⟩,
         ⟨(" " : String).data ++ B.data⟩] := by
    unfold pySplit1 pySplit1L
    rw [hsplit2]
    rfl
  have hstrip1 : pyStrip (⟨(" " : String).data ++ (A.data ++ ("\n" : String).data)⟩ : String)
      = pyStrip A := by
    unfold pyStrip
    have hgrp : (" " : String).data ++ (A.data ++ ("\n" : String).data)
        = (" " : String).data ++ A.data ++ ("\n" : String).data := by
      simp [List.append_assoc]
    show String.mk (stripL ((" " : String).data ++ (A.data ++ ("\n" : String).data)))
      = String.mk (stripL A.data)
    rw [hgrp]
    exact congrArg String.mk (stripL_pad _ _ _ (by decide) (by decide))
  have hstrip2 : pyStrip (⟨(" " : String).data ++ B.data⟩ : String) = pyStrip B := by
    unfold pyStrip
    show String.mk (stripL ((" " : String).data ++ B.data)) = String.mk (stripL B.data)
    exact congrArg String.mk (stripL_left_pad _ _ (by decide))
  constructor
  · unfold parse_thoughts
    rw [step1, step2]
    exact hstrip1
  · have hr3 : ("thoughts: " ++ A ++ "\nstars: " ++ B).data
        = (("thoughts:" : String).data ++
            ((" " : String).data ++ (A.data ++ ("\n" : String).data))) ++
          (("stars:" : String).data ++ ((" " : String).data ++ B.data)) := by
      simp [data_append, l1, l2, List.append_assoc]
    have hsplit3 : findFirstSplit ("stars:" : String).data
        ("thoughts: " ++ A ++ "\nstars: " ++ B).data
        = some (("thoughts:" : String).data ++
              ((" " : String).data ++ (A.data ++ ("\n" : String).data)),
            (" " : String).data ++ B.data) := by
      rw [hr3]
      rw [findFirstSplit_append_right _ _ _ hn]
      rw [findFirstSplit_self_append _ _ (by decide)]
      simp
    unfold parse_stars pySplit1 pySplit1L
    rw [hsplit3]
    exact hstrip2

/-- C2 witness: the first-marker theorem at a concrete reply whose rating
part carries a second marker. -/
theorem c2_witness :
    parse_thoughts ("thoughts: " ++ "looks good" ++ "\nstars: " ++ "4 stars: 5")
      = pyStrip "looks good" ∧
    parse_stars ("thoughts: " ++ "looks good" ++ "\nstars: " ++ "4 stars: 5")
      = pyStrip "4 stars: 5" :=
  c2_first_marker_extraction "looks good" "4 stars: 5" (by decide)

/-- C3 counterexample: the claim says each double-braced placeholder is
replaced leaving no residue.  On the code the replacement targets are the
single-braced tokens, so substituting into the correctness template leaves
one literal brace on each side of every value and the sent message list
differs from the no-residue substitution the spec describes. -/
theorem c3_counterexample :
    run_evaluation_messages correctness_prompt "Q" "C" "A" "G" ≠
      [⟨"system", evaluation_system_message⟩,
       ⟨"user", spec_substitute correctness_prompt "Q" "C" "A" "G"⟩] := by
  decide!

/-- C3 (amended): `run_evaluation` replaces the single-braced tokens, so on
each of the four invoked rubric templates every double-braced placeholder
becomes the substituted value wrapped in one residual literal brace per side
(the pieces `qp2/qp3`, `cp2/cp3`, `fp2/fp3` and `rp2` begin with the closing
and end with the opening residue brace), and the substituted template is sent
as the single user turn after one system turn.  The quality, focus and
retrieval-relevance branches cover the `\x7b\x7bcontext\x7d\x7d` placeholder;
the correctness branch covers `\x7b\x7bground_truth\x7d\x7d`.  The hypotheses
state that the substituted values do not smuggle a later replacement token
into the intermediate strings. -/
theorem c3_single_brace_residue (q c a g : String)
    (hq1 : noOccurIn ("\x7bcontext\x7d" : String).data (qp1.data ++ q.data ++ qp2.data)
      (("\x7bcontext\x7d" : String).data ++
        (qp3.data ++ (("\x7banswer\x7d" : String).data ++ qp4.data))) = true)
    (hq2 : noOccurIn ("\x7banswer\x7d" : String).data
      (qp1.data ++ q.data ++ qp2.data ++ c.data ++ qp3.data)
      (("\x7banswer\x7d" : String).data ++ qp4.data) = true)
    (hq3 : pyContainsL ("\x7bground_truth\x7d" : String).data
      (qp1.data ++ q.data ++ qp2.data ++ c.data ++ qp3.data ++ a.data ++ qp4.data) = false)
    (hc1 : pyContainsL ("\x7bcontext\x7d" : String).data
      (cp1.data ++ q.data ++ (cp2.data ++ (("\x7bground_truth\x7d" : String).data ++
        (cp3.data ++ (("\x7banswer\x7d" : String).data ++ cp4.data))))) = false)
    (hc2 : noOccurIn ("\x7banswer\x7d" : String).data
      (cp1.data ++ q.data ++ cp2.data ++ ("\x7bground_truth\x7d" : String).data ++ cp3.data)
      (("\x7banswer\x7d" : String).data ++ cp4.data) = true)
    (hc3 : noOccurIn ("\x7bground_truth\x7d" : String).data
      (cp1.data ++ q.data ++ cp2.data)
      (("\x7bground_truth\x7d" : String).data ++ (cp3.data ++ a.data ++ cp4.data)) = true)
    (hc4 : pyContainsL ("\x7bground_truth\x7d" : String).data
      (cp3.data ++ a.data ++ cp4.data) = false)
    (hf1 : noOccurIn ("\x7bcontext\x7d" : String).data (fp1.data ++ q.data ++ fp2.data)
      (("\x7bcontext\x7d" : String).data ++
        (fp3.data ++ (("\x7banswer\x7d" : String).data ++ fp4.data))) = true)
    (hf2 : noOccurIn ("\x7banswer\x7d" : String).data
      (fp1.data ++ q.data ++ fp2.data ++ c.data ++ fp3.data)
      (("\x7banswer\x7d" : String).data ++ fp4.data) = true)
    (hf3 : pyContainsL ("\x7bground_truth\x7d" : String).data
      (fp1.data ++ q.data ++ fp2.data ++ c.data ++ fp3.data ++ a.data ++ fp4.data) = false)
    (hr1 : noOccurIn ("\x7bcontext\x7d" : String).data (rp1.data ++ q.data ++ rp2.data)
      (("\x7bcontext\x7d" : String).data ++ rp3.data) = true)
    (hr2 : pyContainsL ("\x7banswer\x7d" : String).data
      (rp1.data ++ q.data ++ rp2.data ++ c.data ++ rp3.data) = false)
    (hr3 : pyContainsL ("\x7bground_truth\x7d" : String).data
      (rp1.data ++ q.data ++ rp2.data ++ c.data ++ rp3.data) = false) :
    run_evaluation_messages quality_prompt q c a g =
      [⟨"system", evaluation_system_message⟩,
       ⟨"user", qp1 ++ q ++ qp2 ++ c ++ qp3 ++ a ++ qp4⟩] ∧
    run_evaluation_messages correctness_prompt q c a g =
      [⟨"system", evaluation_system_message⟩,
       ⟨"user", cp1 ++ q ++ cp2 ++ g ++ cp3 ++ a ++ cp4⟩] ∧
    run_evaluation_messages focus_prompt q c a g =
      [⟨"system", evaluation_system_message⟩,
       ⟨"user", fp1 ++ q ++ fp2 ++ c ++ fp3 ++ a ++ fp4⟩] ∧
    run_evaluation_messages retrieval_relevance_prompt q c a g =
      [⟨"system", evaluation_system_message⟩,
       ⟨"user", rp1 ++ q ++ rp2 ++ c ++ rp3⟩] := by
  refine ⟨?_, ?_, ?_, ?_⟩
  · unfold run_evaluation_messages
    rw [formatted_residue_qca quality_prompt qp1 qp2 qp3 qp4 q c a g
      (by decide!) (by decide!) (by decide!) hq1 (by decide!) hq2 (by decide!) hq3]
  · unfold run_evaluation_messages
    rw [formatted_residue_qga correctness_prompt cp1 cp2 cp3 cp4 q c a g
      (by decide!) (by decide!) (by decide!) hc1 hc2 (by decide!) hc3 hc4]
  · unfold run_evaluation_messages
    rw [formatted_residue_qca focus_prompt fp1 fp2 fp3 fp4 q c a g
      (by decide!) (by decide!) (by decide!) hf1 (by decide!) hf2 (by decide!) hf3]
  · unfold run_evaluation_messages
    rw [formatted_residue_qc retrieval_relevance_prompt rp1 rp2 rp3 q c a g
      (by decide!) (by decide!) (by decide!) hr1 (by decide!) hr2 hr3]

/-- C3 witness: the residue theorem at concrete values, covering all four
invoked templates. -/
theorem c3_witness :
    run_evaluation_messages quality_prompt "What is the cost?" "Some context." "It is 5." "5" =
      [⟨"system", evaluation_system_message⟩,
       ⟨"user", qp1 ++ "What is the cost?" ++ qp2 ++ "Some context." ++ qp3 ++
         "It is 5." ++ qp4⟩] ∧
    run_evaluation_messages correctness_prompt "What is the cost?" "Some context." "It is 5."
        "5" =
      [⟨"system", evaluation_system_message⟩,
       ⟨"user", cp1 ++ "What is the cost?" ++ cp2 ++ "5" ++ cp3 ++ "It is 5." ++ cp4⟩] ∧
    run_evaluation_messages focus_prompt "What is the cost?" "Some context." "It is 5." "5" =
      [⟨"system", evaluation_system_message⟩,
       ⟨"user", fp1 ++ "What is the cost?" ++ fp2 ++ "Some context." ++ fp3 ++
         "It is 5." ++ fp4⟩] ∧
    run_evaluation_messages retrieval_relevance_prompt "What is the cost?" "Some context."
        "It is 5." "5" =
      [⟨"system", evaluation_system_message⟩,
       ⟨"user", rp1 ++ "What is the cost?" ++ rp2 ++ "Some context." ++ rp3⟩] :=
  c3_single_brace_residue "What is the cost?" "Some context." "It is 5." "5"
    (by decide!) (by decide!) (by decide!) (by decide!) (by decide!) (by decide!)
    (by decide!) (by decide!) (by decide!) (by decide!) (by decide!) (by decide!)
    (by decide!)
end Samples
